import Mathlib

/-! # cubez ballistic examples: the per-frame simulation pipeline

A shallow embedding of the two `ballistic` example programs of the cubez
rigid-body library:

* `src/examples/ballistic/ballistic.go` (cube, backboard and a list of bullets):
  namespace `ballistic`;
* `src/examples/ballistic.go` (cube and at most one bullet): namespace `single`.

The Go programs keep their world in package-level variables that point into the
garbage-collected heap.  Here the heap is explicit (`Heap`), pointers are
natural numbers, and every function of the examples takes the world and returns
the new world together with the list of calls it made into the physics library
and the pose-copy helpers (`Call`), oldest call first.

The physics library itself (integrator, narrow phase, resolver, mesh builders)
is not part of the example sources.  Its value-level behaviour is a parameter
(`Lib`), so every theorem holds for whatever the library computes.
-/

/-! ## Package `m` (cubez/math) -/

namespace m

/-- Modelled from the spec: the scalar type `m.Real` is not among the sources.
Floating-point values are abstracted by rationals; the conversions between the
float types are parameters (`Lib.toReal`, `Lib.float32`), and no theorem below
depends on rounding. -/
abbrev Real := Rat

/-- Modelled from the spec: the type `m.Vector3` is not among the sources; a
3D vector of scalars. -/
structure Vector3 where
  x : Real
  y : Real
  z : Real
deriving DecidableEq, Repr

/-- Modelled from the spec: the type `m.Quat` is not among the sources; a
quaternion of scalars. -/
structure Quat where
  r : Real
  i : Real
  j : Real
  k : Real
deriving DecidableEq, Repr

/-- Modelled from the spec: the type `m.Matrix3` is not among the sources; the
inertia tensors of the examples, as a list of coefficients. -/
structure Matrix3 where
  coeffs : List Real
deriving DecidableEq, Repr

end m

/-! ## Package `mgl` (mathgl, the renderer's float32 vectors) -/

namespace mgl

/-- Source type `mgl.Vec3`. -/
structure Vec3 where
  x : Rat
  y : Rat
  z : Rat
deriving DecidableEq, Repr

/-- Source type `mgl.Vec4`. -/
structure Vec4 where
  x : Rat
  y : Rat
  z : Rat
  w : Rat
deriving DecidableEq, Repr

/-- Source type `mgl.Quat`. -/
structure Quat where
  w : Rat
  x : Rat
  y : Rat
  z : Rat
deriving DecidableEq, Repr

end mgl

/-- A pointer into the heap. -/
abbrev Ptr := Nat

/-! ## Package `cubez` (the physics library facade) -/

namespace cubez

/-- Modelled from the spec: the type `cubez.RigidBody` is not among the
sources.  The spec lists position, orientation, velocity, acceleration, mass
and inertia tensor; the first four are the fields the examples read or write,
the rest (mass, inertia tensor, cached transform) is library-private and kept
as an uninterpreted list of scalars. -/
structure RigidBody where
  Position : m.Vector3
  Orientation : m.Quat
  Velocity : m.Vector3
  Acceleration : m.Vector3
  internal : List m.Real
deriving DecidableEq, Repr

/-- Modelled from the spec: the type `cubez.CollisionPlane` is not among the
sources; a plane given by normal and offset, bound to no body. -/
structure CollisionPlane where
  Normal : m.Vector3
  Offset : m.Real
deriving DecidableEq, Repr

/-- Modelled from the spec: the shapes of the colliders that are bound to a
body, a box with its half-size or a sphere with its radius. -/
inductive Shape where
  | box (halfSize : m.Vector3)
  | sphere (radius : m.Real)
deriving DecidableEq, Repr

/-- Modelled from the spec: the types `cubez.CollisionBox`,
`cubez.CollisionCube` and `cubez.CollisionSphere` are not among the sources.  A
collider bound to a body holds the body pointer (field `Body`), its shape, and
the cached derived data. -/
structure CollisionPrimitive where
  Body : Ptr
  shape : Shape
  transform : List m.Real
deriving DecidableEq, Repr

/-- Field `HalfSize` of a collision box. -/
def CollisionPrimitive.HalfSize (c : CollisionPrimitive) : m.Vector3 :=
  match c.shape with
  | Shape.box hs => hs
  | Shape.sphere _ => ⟨0, 0, 0⟩

/-- Modelled from the spec: the interface `cubez.Collider` is not among the
sources; its values in the examples are pointers to a box or a sphere, and
planes.  A plane is built anew on every call of `generateContacts` and is
identified with its value. -/
inductive Collider where
  | primitive (p : Ptr)
  | plane (pl : CollisionPlane)
deriving DecidableEq, Repr

/-- Modelled from the spec: the type `cubez.Contact` is not among the sources;
the spec lists contact point, normal, penetration depth, restitution and
friction coefficients, and the one or two bodies involved. -/
structure Contact where
  Bodies : Option Ptr × Option Ptr
  ContactPoint : m.Vector3
  ContactNormal : m.Vector3
  Penetration : m.Real
  Restitution : m.Real
  Friction : m.Real
deriving DecidableEq, Repr

end cubez

/-! ## Package `ex` (cubez/examples: renderables and entities) -/

namespace ex

/-- Modelled from the spec: the type `ex.Renderable` is not among the sources;
the visual mirror of a pose (`Location`, `LocalRotation`) with the draw
attributes the examples set (`Shader`, `Color`), and the mesh as an
uninterpreted list of scalars. -/
structure Renderable where
  Location : mgl.Vec3
  LocalRotation : mgl.Quat
  Shader : Nat
  Color : mgl.Vec4
  mesh : List Rat
deriving DecidableEq, Repr

/-- Modelled from the spec: the type `ex.Entity` is not among the sources; one
renderable (`Node`) paired with one collider (`Collider`). -/
structure Entity where
  Node : Ptr
  Collider : Ptr
deriving DecidableEq, Repr

end ex

/-! ## Heap and call trace -/

/-- The heap: one store per kind of object, and the next free address. -/
structure Heap where
  bodies : Ptr → cubez.RigidBody
  colliders : Ptr → cubez.CollisionPrimitive
  nodes : Ptr → ex.Renderable
  entities : Ptr → ex.Entity
  next : Ptr

/-- One call into the library (or one pose copy), with its arguments; a
collision test also records what it returned. -/
inductive Call where
  | Integrate (body : Ptr) (duration : m.Real)
  | CalculateDerivedData (collider : Ptr)
  | SetGlVector3 (node : Ptr) (body : Ptr)
  | SetGlQuat (node : Ptr) (body : Ptr)
  | CheckForCollisions (one two : cubez.Collider) (restitution friction : m.Real)
      (existing : List cubez.Contact) (found : Bool) (contacts : List cubez.Contact)
  | CheckAgainstHalfSpace (self : Ptr) (plane : cubez.CollisionPlane)
      (existing : List cubez.Contact) (found : Bool) (contacts : List cubez.Contact)
  | CheckAgainstSphere (self sphere : Ptr)
      (existing : List cubez.Contact) (found : Bool) (contacts : List cubez.Contact)
  | ResolveContacts (maxIters : Nat) (contacts : List cubez.Contact) (duration : m.Real)
deriving DecidableEq, Repr

/-- The value-level behaviour of everything the examples call but do not
define.  Every field is a parameter of the development. -/
structure Lib where
  /-- The conversion `m.Real(delta)` of a `float64`. -/
  toReal : Rat → m.Real
  /-- The conversion `float32(x)` inside the pose-copy helpers. -/
  float32 : m.Real → Rat
  /-- The body a collider constructor creates when it is given `nil`. -/
  NewRigidBody : cubez.RigidBody
  /-- The method `(*RigidBody).Integrate(duration)`. -/
  Integrate : m.Real → cubez.RigidBody → cubez.RigidBody
  /-- The method `(*RigidBody).SetMass(mass)`. -/
  SetMass : m.Real → cubez.RigidBody → cubez.RigidBody
  /-- The method `(*RigidBody).SetInfiniteMass()`. -/
  SetInfiniteMass : cubez.RigidBody → cubez.RigidBody
  /-- The method `(*RigidBody).SetInertiaTensor(tensor)`. -/
  SetInertiaTensor : m.Matrix3 → cubez.RigidBody → cubez.RigidBody
  /-- The method `(*RigidBody).CalculateDerivedData()`. -/
  BodyCalculateDerivedData : cubez.RigidBody → cubez.RigidBody
  /-- The method `(*Matrix3).SetBlockInertiaTensor(halfSize, mass)`. -/
  SetBlockInertiaTensor : m.Matrix3 → m.Vector3 → m.Real → m.Matrix3
  /-- The method `(*Matrix3).SetInertiaTensorCoeffs(ix, iy, iz, ixy, ixz, iyz)`. -/
  SetInertiaTensorCoeffs : m.Matrix3 → m.Real → m.Real → m.Real → m.Real → m.Real → m.Real → m.Matrix3
  /-- The derived data a collider's `CalculateDerivedData()` caches, computed
  from its body and shape. -/
  ColliderDerivedData : cubez.RigidBody → cubez.Shape → List m.Real
  /-- The function `cubez.CheckForCollisions`; it may read the whole heap. -/
  CheckForCollisions : Heap → cubez.Collider → cubez.Collider → m.Real → m.Real →
    List cubez.Contact → Bool × List cubez.Contact
  /-- The methods `CheckAgainstHalfSpace` of the cube and of the sphere. -/
  CheckAgainstHalfSpace : Heap → Ptr → cubez.CollisionPlane →
    List cubez.Contact → Bool × List cubez.Contact
  /-- The method `(*CollisionCube).CheckAgainstSphere`. -/
  CheckAgainstSphere : Heap → Ptr → Ptr → List cubez.Contact → Bool × List cubez.Contact
  /-- The function `cubez.ResolveContacts`: it may rewrite every body. -/
  ResolveContacts : Nat → List cubez.Contact → m.Real →
    (Ptr → cubez.RigidBody) → (Ptr → cubez.RigidBody)
  /-- The mesh builder `ex.CreateSphere(radius, rings, sectors)`. -/
  CreateSphere : Rat → Nat → Nat → ex.Renderable
  /-- The mesh builder `ex.CreateCube(xmin, ymin, zmin, xmax, ymax, zmax)`. -/
  CreateCube : Rat → Rat → Rat → Rat → Rat → Rat → ex.Renderable
  /-- The mesh builder `ex.CreatePlaneXZ(x0, z0, x1, z1, y)`. -/
  CreatePlaneXZ : Rat → Rat → Rat → Rat → Rat → ex.Renderable
  /-- The shader handle `ex.LoadShaderProgram` returns when it succeeds. -/
  LoadShaderProgram : Nat

/-- What a running example carries between statements: the heap and the calls
made so far (oldest first). -/
abbrev Sim := Heap × List Call

namespace Heap

/-- Store `b` at body address `p`. -/
def setBody (h : Heap) (p : Ptr) (b : cubez.RigidBody) : Heap :=
  { h with bodies := fun q => if q = p then b else h.bodies q }

/-- Store `c` at collider address `p`. -/
def setCollider (h : Heap) (p : Ptr) (c : cubez.CollisionPrimitive) : Heap :=
  { h with colliders := fun q => if q = p then c else h.colliders q }

/-- Store `r` at renderable address `p`. -/
def setNode (h : Heap) (p : Ptr) (r : ex.Renderable) : Heap :=
  { h with nodes := fun q => if q = p then r else h.nodes q }

/-- Store `e` at entity address `p`. -/
def setEntity (h : Heap) (p : Ptr) (e : ex.Entity) : Heap :=
  { h with entities := fun q => if q = p then e else h.entities q }

/-- Reserve the next free address. -/
def alloc (h : Heap) : Ptr × Heap :=
  (h.next, { h with next := h.next + 1 })

/-- Modelled from the spec: the method `GetBody()` of a collider with a body
returns the body it is bound to, the field `Body` (`fire` uses both). -/
def GetBody (h : Heap) (c : Ptr) : Ptr :=
  (h.colliders c).Body

end Heap

/-! ## Library calls as steps of the simulation -/

namespace cubez

/-- Modelled from the spec: the call `body.Integrate(duration)`.  What the
integrator computes is the parameter `lib.Integrate`; it rewrites the body it
is called on and nothing else. -/
def Integrate (lib : Lib) (body : Ptr) (duration : m.Real) (s : Sim) : Sim :=
  (s.1.setBody body (lib.Integrate duration (s.1.bodies body)),
   s.2 ++ [Call.Integrate body duration])

/-- Modelled from the spec: the call `collider.CalculateDerivedData()` on a
collider with a body.  The cached data are recomputed from the body's current
state (parameter `lib.ColliderDerivedData`); nothing else changes. -/
def CalculateDerivedData (lib : Lib) (collider : Ptr) (s : Sim) : Sim :=
  let c := s.1.colliders collider
  (s.1.setCollider collider
      { c with transform := lib.ColliderDerivedData (s.1.bodies c.Body) c.shape },
   s.2 ++ [Call.CalculateDerivedData collider])

/-- Modelled from the spec: the call `cubez.NewCollisionPlane(normal, offset)`
yields the plane with this normal and offset. -/
def NewCollisionPlane (normal : m.Vector3) (offset : m.Real) : CollisionPlane :=
  { Normal := normal, Offset := offset }

/-- Modelled from the spec: the call
`cubez.CheckForCollisions(one, two, restitution, friction, existing)`.  What
the test returns is the parameter `lib.CheckForCollisions`; a test changes
nothing. -/
def CheckForCollisions (lib : Lib) (h : Heap) (one two : Collider)
    (restitution friction : m.Real) (existing : List Contact) (t : List Call) :
    (Bool × List Contact) × List Call :=
  let r := lib.CheckForCollisions h one two restitution friction existing
  (r, t ++ [Call.CheckForCollisions one two restitution friction existing r.1 r.2])

/-- Modelled from the spec: the call `self.CheckAgainstHalfSpace(plane,
existing)` of the older API, with the parameter `lib.CheckAgainstHalfSpace`. -/
def CheckAgainstHalfSpace (lib : Lib) (h : Heap) (self : Ptr) (plane : CollisionPlane)
    (existing : List Contact) (t : List Call) : (Bool × List Contact) × List Call :=
  let r := lib.CheckAgainstHalfSpace h self plane existing
  (r, t ++ [Call.CheckAgainstHalfSpace self plane existing r.1 r.2])

/-- Modelled from the spec: the call `self.CheckAgainstSphere(sphere,
existing)` of the older API, with the parameter `lib.CheckAgainstSphere`. -/
def CheckAgainstSphere (lib : Lib) (h : Heap) (self sphere : Ptr)
    (existing : List Contact) (t : List Call) : (Bool × List Contact) × List Call :=
  let r := lib.CheckAgainstSphere h self sphere existing
  (r, t ++ [Call.CheckAgainstSphere self sphere existing r.1 r.2])

/-- Modelled from the spec: the call
`cubez.ResolveContacts(maxIters, contacts, duration)`.  What the resolver does
to the bodies is the parameter `lib.ResolveContacts`; it may rewrite every
body, and touches neither colliders nor renderables. -/
def ResolveContacts (lib : Lib) (maxIters : Nat) (contacts : List Contact)
    (duration : m.Real) (s : Sim) : Sim :=
  ({ s.1 with bodies := lib.ResolveContacts maxIters contacts duration s.1.bodies },
   s.2 ++ [Call.ResolveContacts maxIters contacts duration])

end cubez

namespace ex

/-- The `mgl.Vec3` with the coordinates of `v`, each converted with `float32`. -/
def toVec3 (lib : Lib) (v : m.Vector3) : mgl.Vec3 :=
  ⟨lib.float32 v.x, lib.float32 v.y, lib.float32 v.z⟩

/-- The `mgl.Quat` with the coefficients of `q`, each converted with `float32`. -/
def toQuat (lib : Lib) (q : m.Quat) : mgl.Quat :=
  ⟨lib.float32 q.r, lib.float32 q.i, lib.float32 q.j, lib.float32 q.k⟩

/-- Modelled from the spec: `ex.SetGlVector3(dst, src)` is not among the
sources; the spec describes the pose sync as a pure one-directional copy of the
body's position into the renderable.  Here `dst` is the field `Location` of the
renderable `node` and `src` the field `Position` of `body`. -/
def SetGlVector3 (lib : Lib) (node body : Ptr) (s : Sim) : Sim :=
  (s.1.setNode node { s.1.nodes node with Location := toVec3 lib (s.1.bodies body).Position },
   s.2 ++ [Call.SetGlVector3 node body])

/-- Modelled from the spec: `ex.SetGlQuat(dst, src)` is not among the sources;
it copies the body's orientation into the renderable.  Here `dst` is the field
`LocalRotation` of `node` and `src` the field `Orientation` of `body`. -/
def SetGlQuat (lib : Lib) (node body : Ptr) (s : Sim) : Sim :=
  (s.1.setNode node
      { s.1.nodes node with LocalRotation := toQuat lib (s.1.bodies body).Orientation },
   s.2 ++ [Call.SetGlQuat node body])

end ex

/-! ## Constructors -/

namespace Heap

/-- The heap before anything is allocated; address `0` is never handed out. -/
def empty : Heap :=
  { bodies := fun _ => ⟨⟨0, 0, 0⟩, ⟨0, 0, 0, 0⟩, ⟨0, 0, 0⟩, ⟨0, 0, 0⟩, []⟩
    colliders := fun _ => ⟨0, cubez.Shape.sphere 0, []⟩
    nodes := fun _ => ⟨⟨0, 0, 0⟩, ⟨0, 0, 0, 0⟩, 0, ⟨0, 0, 0, 0⟩, []⟩
    entities := fun _ => ⟨0, 0⟩
    next := 1 }

/-- Modelled from the spec: the mesh builders of `ex` are not among the
sources; each returns a pointer to a new renderable, whose value `r` is a
parameter (`lib.CreateSphere`, `lib.CreateCube`, `lib.CreatePlaneXZ`). -/
def newNode (h : Heap) (r : ex.Renderable) : Ptr × Heap :=
  let a := h.alloc
  (a.1, a.2.setNode a.1 r)

/-- Modelled from the spec: the constructors of the colliders with a body are
not among the sources.  Called with a `nil` body, as everywhere in the
examples, the constructor binds the new collider to a new body of its own (the
examples dereference `collider.Body` right after the call); the cache is empty
until the first `CalculateDerivedData`. -/
def newCollider (lib : Lib) (h : Heap) (shape : cubez.Shape) : Ptr × Heap :=
  let b := h.alloc
  let h := b.2.setBody b.1 lib.NewRigidBody
  let c := h.alloc
  (c.1, c.2.setCollider c.1 { Body := b.1, shape := shape, transform := [] })

end Heap

namespace cubez

/-- Modelled from the spec: the call `cubez.NewCollisionBox(nil, halfSize)`. -/
def NewCollisionBox (lib : Lib) (halfSize : m.Vector3) (h : Heap) : Ptr × Heap :=
  h.newCollider lib (Shape.box halfSize)

/-- Modelled from the spec: the call `cubez.NewCollisionCube(nil, halfSize)` of
the older API. -/
def NewCollisionCube (lib : Lib) (halfSize : m.Vector3) (h : Heap) : Ptr × Heap :=
  h.newCollider lib (Shape.box halfSize)

/-- Modelled from the spec: the call `cubez.NewCollisionSphere(nil, radius)`. -/
def NewCollisionSphere (lib : Lib) (radius : m.Real) (h : Heap) : Ptr × Heap :=
  h.newCollider lib (Shape.sphere radius)

/-- The zero value of `m.Matrix3` (`var cubeInertia m.Matrix3`). -/
def zeroMatrix3 : m.Matrix3 := ⟨List.replicate 9 0⟩

end cubez

namespace ex

/-- Modelled from the spec: `ex.NewEntity(node, collider)` is not among the
sources; the spec defines an entity as the pairing of one renderable with one
collider, so the constructor stores the two pointers and nothing else (the
older example builds its entity with `new(Entity)` and two field writes). -/
def NewEntity (node collider : Ptr) (h : Heap) : Ptr × Heap :=
  let a := h.alloc
  (a.1, a.2.setEntity a.1 { Node := node, Collider := collider })

end ex

/-! ## `src/examples/ballistic/ballistic.go` -/

namespace ballistic

/-- The package-level variables of the example, and the heap they point into. -/
structure World where
  heap : Heap
  cube : Ptr
  backboard : Ptr
  bullets : List Ptr
  colorShader : Nat
  groundPlane : cubez.CollisionPlane
  ground : Ptr

/-- The body of the loop `for _, bullet := range bullets` of `updateObjects`. -/
def updateBullet (lib : Lib) (delta : Rat) (s : Sim) (bullet : Ptr) : Sim :=
  let bulletBody := s.1.GetBody (s.1.entities bullet).Collider
  let s := cubez.Integrate lib bulletBody (lib.toReal delta) s
  let s := cubez.CalculateDerivedData lib (s.1.entities bullet).Collider s
  let s := ex.SetGlVector3 lib (s.1.entities bullet).Node bulletBody s
  ex.SetGlQuat lib (s.1.entities bullet).Node bulletBody s

/-- Source function `updateObjects`. -/
def updateObjects (lib : Lib) (delta : Rat) (w : World) : World × List Call :=
  let s : Sim := (w.heap, [])
  let body := s.1.GetBody (s.1.entities w.cube).Collider
  let s := cubez.Integrate lib body (lib.toReal delta) s
  let s := cubez.CalculateDerivedData lib (s.1.entities w.cube).Collider s
  let s := ex.SetGlVector3 lib (s.1.entities w.cube).Node body s
  let s := ex.SetGlQuat lib (s.1.entities w.cube).Node body s
  let s := w.bullets.foldl (updateBullet lib delta) s
  ({ w with heap := s.1 }, s.2)

/-- The state of `generateContacts` between two statements: `returnFound`,
`contacts`, and the calls made so far. -/
abbrev Gen := Bool × List cubez.Contact × List Call

/-- One statement pair of `generateContacts`:
`found, contacts = cubez.CheckForCollisions(one, two, 0.9, 0.1, contacts)`
followed by `if found { returnFound = true }`. -/
def checkPair (lib : Lib) (h : Heap) (one two : cubez.Collider) (g : Gen) : Gen :=
  let r := cubez.CheckForCollisions lib h one two 0.9 0.1 g.2.1 g.2.2
  let found := r.1.1
  let contacts := r.1.2
  (if found then true else g.1, contacts, r.2)

/-- The body of the inner loop `for _, bullet2 := range bullets`. -/
def checkBullet2 (lib : Lib) (w : World) (bullet : Ptr) (g : Gen) (bullet2 : Ptr) : Gen :=
  if bullet2 = bullet then g
  else
    checkPair lib w.heap (cubez.Collider.primitive (w.heap.entities bullet2).Collider)
      (cubez.Collider.primitive (w.heap.entities bullet).Collider) g

/-- The body of the outer loop `for _, bullet := range bullets` of
`generateContacts`. -/
def checkBullet (lib : Lib) (w : World) (groundPlane : cubez.CollisionPlane)
    (g : Gen) (bullet : Ptr) : Gen :=
  let bc := cubez.Collider.primitive (w.heap.entities bullet).Collider
  -- check against the ground
  let g := checkPair lib w.heap bc (cubez.Collider.plane groundPlane) g
  -- check against the cube
  let g := checkPair lib w.heap (cubez.Collider.primitive (w.heap.entities w.cube).Collider) bc g
  -- check against the backboard
  let g := checkPair lib w.heap
    (cubez.Collider.primitive (w.heap.entities w.backboard).Collider) bc g
  -- check against other bullets
  w.bullets.foldl (checkBullet2 lib w bullet) g

/-- Source function `generateContacts`; `delta` is not used, as in the source.
The first test is given `nil`, the empty list. -/
def generateContacts (lib : Lib) (_delta : Rat) (w : World) :
    (Bool × List cubez.Contact) × List Call :=
  let g : Gen := (false, [], [])
  let groundPlane := cubez.NewCollisionPlane ⟨0.0, 1.0, 0.0⟩ 0.0
  let cubeC := cubez.Collider.primitive (w.heap.entities w.cube).Collider
  -- see if we have a collision with the ground
  let g := checkPair lib w.heap cubeC (cubez.Collider.plane groundPlane) g
  -- see if there's a collision against the backboard
  let g := checkPair lib w.heap cubeC
    (cubez.Collider.primitive (w.heap.entities w.backboard).Collider) g
  -- run collision checks on bullets
  let g := w.bullets.foldl (checkBullet lib w groundPlane) g
  ((g.1, g.2.1), g.2.2)

/-- Source function `updateCallback`.  The product `len(contacts)*8` is taken in
the naturals: a Go slice of pointers holds fewer than `2^60` elements, so the
`int` product cannot wrap. -/
def updateCallback (lib : Lib) (delta : Rat) (w : World) : World × List Call :=
  let u := updateObjects lib delta w
  let g := generateContacts lib delta u.1
  let foundContacts := g.1.1
  let contacts := g.1.2
  if foundContacts then
    let s := cubez.ResolveContacts lib (contacts.length * 8) contacts (lib.toReal delta)
      (u.1.heap, u.2 ++ g.2)
    ({ u.1 with heap := s.1 }, s.2)
  else
    (u.1, u.2 ++ g.2)

end ballistic

namespace ballistic

/-- Source function `main`, from the shader program to the last statement
before the render loop; window, camera and GL calls are left out. -/
def main (lib : Lib) : World :=
  let h := Heap.empty
  let colorShader := lib.LoadShaderProgram
  -- create the ground plane
  let groundPlane := cubez.NewCollisionPlane ⟨0.0, 1.0, 0.0⟩ 0.0
  -- make a ground plane to draw
  let (ground, h) := h.newNode (lib.CreatePlaneXZ (-500.0) 500.0 500.0 (-500.0) 1.0)
  let h := h.setNode ground { h.nodes ground with Shader := colorShader }
  let h := h.setNode ground { h.nodes ground with Color := ⟨0.6, 0.6, 0.6, 1.0⟩ }
  -- create a test cube to render
  let (cubeNode, h) := h.newNode (lib.CreateCube (-1.0) (-1.0) (-1.0) 1.0 1.0 1.0)
  let h := h.setNode cubeNode { h.nodes cubeNode with Shader := colorShader }
  let h := h.setNode cubeNode { h.nodes cubeNode with Color := ⟨1.0, 0.0, 0.0, 1.0⟩ }
  -- create the collision box for the the cube
  let cubeMass : m.Real := 8.0
  let cubeInertia := cubez.zeroMatrix3
  let (cubeCollider, h) := cubez.NewCollisionBox lib ⟨1.0, 1.0, 1.0⟩ h
  let body := h.GetBody cubeCollider
  let h := h.setBody body { h.bodies body with Position := ⟨0.0, 5.0, 0.0⟩ }
  let h := h.setBody body (lib.SetMass cubeMass (h.bodies body))
  let cubeInertia := lib.SetBlockInertiaTensor cubeInertia (h.colliders cubeCollider).HalfSize cubeMass
  let h := h.setBody body (lib.SetInertiaTensor cubeInertia (h.bodies body))
  let h := h.setBody body (lib.BodyCalculateDerivedData (h.bodies body))
  let h := (cubez.CalculateDerivedData lib cubeCollider (h, [])).1
  -- make the entity out of the renerable and collider
  let (cube, h) := ex.NewEntity cubeNode cubeCollider h
  -- make a slice of entities for bullets
  let bullets : List Ptr := []
  -- make the backboard to bound the bullets off of
  let (backboardNode, h) := h.newNode (lib.CreateCube (-0.5) (-2.0) (-0.25) 0.5 2.0 0.25)
  let h := h.setNode backboardNode { h.nodes backboardNode with Shader := colorShader }
  let h := h.setNode backboardNode { h.nodes backboardNode with Color := ⟨0.25, 0.2, 0.2, 1.0⟩ }
  let (backboardCollider, h) := cubez.NewCollisionBox lib ⟨0.5, 2.0, 0.25⟩ h
  let bbody := h.GetBody backboardCollider
  let h := h.setBody bbody { h.bodies bbody with Position := ⟨0.0, 2.0, -10.0⟩ }
  let h := h.setBody bbody (lib.SetInfiniteMass (h.bodies bbody))
  let h := h.setBody bbody (lib.BodyCalculateDerivedData (h.bodies bbody))
  let h := (cubez.CalculateDerivedData lib backboardCollider (h, [])).1
  let h := (ex.SetGlVector3 lib backboardNode bbody (h, [])).1
  -- make the backboard entity
  let (backboard, h) := ex.NewEntity backboardNode backboardCollider h
  { heap := h, cube := cube, backboard := backboard, bullets := bullets,
    colorShader := colorShader, groundPlane := groundPlane, ground := ground }

/-- Source function `fire`. -/
def fire (lib : Lib) (w : World) : World :=
  let h := w.heap
  let mass : m.Real := 1.5
  let radius : m.Real := 0.2
  -- create a test sphere to render
  let (bullet, h) := h.newNode (lib.CreateSphere (lib.float32 radius) 16 16)
  let h := h.setNode bullet { h.nodes bullet with Shader := w.colorShader }
  let h := h.setNode bullet { h.nodes bullet with Color := ⟨0.2, 0.2, 1.0, 1.0⟩ }
  -- create the collision box for the the bullet
  let (bulletCollider, h) := cubez.NewCollisionSphere lib radius h
  let body := h.GetBody bulletCollider
  let h := h.setBody body { h.bodies body with Position := ⟨0.0, 1.5, 20.0⟩ }
  let cubeInertia := cubez.zeroMatrix3
  let coeff : m.Real := 0.4 * mass * radius * radius
  let cubeInertia := lib.SetInertiaTensorCoeffs cubeInertia coeff coeff coeff 0.0 0.0 0.0
  let h := h.setBody body (lib.SetInertiaTensor cubeInertia (h.bodies body))
  let h := h.setBody body (lib.SetMass mass (h.bodies body))
  let h := h.setBody body { h.bodies body with Velocity := ⟨0.0, 0.0, -40.0⟩ }
  let h := h.setBody body { h.bodies body with Acceleration := ⟨0.0, -2.5, 0.0⟩ }
  let h := h.setBody body (lib.BodyCalculateDerivedData (h.bodies body))
  let h := (cubez.CalculateDerivedData lib bulletCollider (h, [])).1
  let (e, h) := ex.NewEntity bullet bulletCollider h
  { w with heap := h, bullets := w.bullets ++ [e] }

end ballistic

/-! ## `src/examples/ballistic.go` -/

namespace single

/-- The package-level variables of the older example: the cube entity, and the
renderable and the collider of the one bullet, each `nil` until `fire`. -/
structure World where
  heap : Heap
  cube : Ptr
  bullet : Option Ptr
  bulletCollider : Option Ptr
  colorShader : Nat

/-- Source function `updateObjects`. -/
def updateObjects (lib : Lib) (delta : Rat) (w : World) : World × List Call :=
  let s : Sim := (w.heap, [])
  -- for now there's only one box to update
  let body := s.1.GetBody (s.1.entities w.cube).Collider
  let s := cubez.Integrate lib body (lib.toReal delta) s
  let s := cubez.CalculateDerivedData lib (s.1.entities w.cube).Collider s
  let s := ex.SetGlVector3 lib (s.1.entities w.cube).Node body s
  let s := ex.SetGlQuat lib (s.1.entities w.cube).Node body s
  let s :=
    match w.bulletCollider with
    | none => s
    | some bulletCollider =>
      let s := cubez.Integrate lib (s.1.GetBody bulletCollider) (lib.toReal delta) s
      let s := cubez.CalculateDerivedData lib bulletCollider s
      match w.bullet with
      | none => s
      | some bullet =>
        let s := ex.SetGlVector3 lib bullet (s.1.GetBody bulletCollider) s
        ex.SetGlQuat lib bullet (s.1.GetBody bulletCollider) s
  ({ w with heap := s.1 }, s.2)

/-- Source function `generateContacts`; `delta` is not used, as in the source. -/
def generateContacts (lib : Lib) (_delta : Rat) (w : World) :
    (Bool × List cubez.Contact) × List Call :=
  -- create the ground plane
  let groundPlane := cubez.NewCollisionPlane ⟨0.0, 1.0, 0.0⟩ 0.0
  -- see if we have a collision with the ground
  let r := cubez.CheckAgainstHalfSpace lib w.heap (w.heap.entities w.cube).Collider
    groundPlane [] []
  let found := r.1.1
  let contacts := r.1.2
  -- run collision checks on bullets
  match w.bulletCollider with
  | none => ((found, contacts), r.2)
  | some bulletCollider =>
    let r1 := cubez.CheckAgainstHalfSpace lib w.heap bulletCollider groundPlane contacts r.2
    let f := r1.1.1
    let c := r1.1.2
    let r2 := cubez.CheckAgainstSphere lib w.heap (w.heap.entities w.cube).Collider
      bulletCollider c r1.2
    let f2 := r2.1.1
    let c2 := r2.1.2
    let found := found || f || f2
    let contacts := c2
    ((found, contacts), r2.2)

/-- Source function `updateCallback`; the product `len(contacts)*8` is taken in
the naturals, as in `ballistic.updateCallback`. -/
def updateCallback (lib : Lib) (delta : Rat) (w : World) : World × List Call :=
  let u := updateObjects lib delta w
  let g := generateContacts lib delta u.1
  let foundContacts := g.1.1
  let contacts := g.1.2
  if foundContacts then
    let s := cubez.ResolveContacts lib (contacts.length * 8) contacts (lib.toReal delta)
      (u.1.heap, u.2 ++ g.2)
    ({ u.1 with heap := s.1 }, s.2)
  else
    (u.1, u.2 ++ g.2)

/-- Source function `main`, from the shader program to the last statement
before the render loop; window, camera and GL calls are left out. -/
def main (lib : Lib) : World :=
  let h := Heap.empty
  let colorShader := lib.LoadShaderProgram
  -- create a test cube to render
  let (cubeNode, h) := h.newNode (lib.CreateCube (-1.0) (-1.0) (-1.0) 1.0 1.0 1.0)
  let h := h.setNode cubeNode { h.nodes cubeNode with Shader := colorShader }
  let h := h.setNode cubeNode { h.nodes cubeNode with Color := ⟨1.0, 0.0, 0.0, 1.0⟩ }
  -- create the collision box for the the cube
  let (cubeCollider, h) := cubez.NewCollisionCube lib ⟨1.0, 1.0, 1.0⟩ h
  let body := h.GetBody cubeCollider
  let h := h.setBody body { h.bodies body with Position := ⟨0.0, 10.0, 0.0⟩ }
  let h := h.setBody body (lib.SetMass 8.0 (h.bodies body))
  let h := h.setBody body (lib.BodyCalculateDerivedData (h.bodies body))
  let h := (cubez.CalculateDerivedData lib cubeCollider (h, [])).1
  -- make the entity out of the renerable and collider
  let (cube, h) := h.alloc
  let h := h.setEntity cube { h.entities cube with Node := cubeNode }
  let h := h.setEntity cube { h.entities cube with Collider := cubeCollider }
  { heap := h, cube := cube, bullet := none, bulletCollider := none,
    colorShader := colorShader }

/-- Source function `fire`: both globals are overwritten. -/
def fire (lib : Lib) (w : World) : World :=
  let h := w.heap
  -- create a test sphere to render
  let (bullet, h) := h.newNode (lib.CreateSphere 0.25 16 16)
  let h := h.setNode bullet { h.nodes bullet with Shader := w.colorShader }
  let h := h.setNode bullet { h.nodes bullet with Color := ⟨0.0, 0.0, 1.0, 1.0⟩ }
  -- create the collision box for the the bullet
  let (bulletCollider, h) := cubez.NewCollisionSphere lib 0.25 h
  let body := h.GetBody bulletCollider
  let h := h.setBody body { h.bodies body with Position := ⟨0.65, 1.0, 10.0⟩ }
  let h := h.setBody body (lib.SetMass 1.0 (h.bodies body))
  let h := h.setBody body { h.bodies body with Velocity := ⟨0.0, 0.0, -75.0⟩ }
  let h := h.setBody body { h.bodies body with Acceleration := ⟨0.0, -10.0, 0.0⟩ }
  let h := h.setBody body (lib.BodyCalculateDerivedData (h.bodies body))
  let h := (cubez.CalculateDerivedData lib bulletCollider (h, [])).1
  { w with heap := h, bullet := some bullet, bulletCollider := some bulletCollider }

end single

/-! ## A small concrete library

One instance of `Lib`, simple enough to evaluate by hand: semi-implicit Euler
integration, a sphere-or-box against a horizontal plane test that reads the
cached centre of the collider, a centre-distance test for two primitives, and a
resolver that pushes the first body of each contact out along the normal.  It
is used to evaluate the examples on concrete worlds. -/

namespace toy

/-- The extent of a shape along an axis: half the box height, or the radius. -/
def extent (s : cubez.Shape) : m.Real :=
  match s with
  | cubez.Shape.box hs => hs.y
  | cubez.Shape.sphere r => r

/-- Semi-implicit Euler step. -/
def Integrate (dt : m.Real) (b : cubez.RigidBody) : cubez.RigidBody :=
  let v : m.Vector3 := ⟨b.Velocity.x + b.Acceleration.x * dt,
    b.Velocity.y + b.Acceleration.y * dt, b.Velocity.z + b.Acceleration.z * dt⟩
  { b with
    Velocity := v
    Position := ⟨b.Position.x + v.x * dt, b.Position.y + v.y * dt, b.Position.z + v.z * dt⟩ }

/-- The cached centre of a collider (the origin before the first refresh). -/
def centre (c : cubez.CollisionPrimitive) : m.Vector3 :=
  match c.transform with
  | [x, y, z] => ⟨x, y, z⟩
  | _ => ⟨0, 0, 0⟩

/-- Primitive against the horizontal plane `y = offset`. -/
def againstPlane (h : Heap) (p : Ptr) (pl : cubez.CollisionPlane) (restitution friction : m.Real)
    (existing : List cubez.Contact) : Bool × List cubez.Contact :=
  let c := h.colliders p
  let depth := pl.Offset + extent c.shape - (centre c).y
  if 0 ≤ depth then
    (true, existing ++ [{ Bodies := (some c.Body, none), ContactPoint := centre c,
                          ContactNormal := pl.Normal, Penetration := depth,
                          Restitution := restitution, Friction := friction }])
  else (false, existing)

/-- Two primitives: contact when the centres are closer than the two extents. -/
def againstPrimitive (h : Heap) (p q : Ptr) (restitution friction : m.Real)
    (existing : List cubez.Contact) : Bool × List cubez.Contact :=
  let c := h.colliders p
  let d := h.colliders q
  let dx := (centre c).x - (centre d).x
  let dy := (centre c).y - (centre d).y
  let dz := (centre c).z - (centre d).z
  let reach := extent c.shape + extent d.shape
  if dx * dx + dy * dy + dz * dz ≤ reach * reach then
    (true, existing ++ [{ Bodies := (some c.Body, some d.Body), ContactPoint := centre c,
                          ContactNormal := ⟨0, 1, 0⟩, Penetration := reach,
                          Restitution := restitution, Friction := friction }])
  else (false, existing)

/-- The narrow phase: dispatch on the two colliders. -/
def CheckForCollisions (h : Heap) (one two : cubez.Collider) (restitution friction : m.Real)
    (existing : List cubez.Contact) : Bool × List cubez.Contact :=
  match one, two with
  | cubez.Collider.primitive p, cubez.Collider.plane pl =>
    againstPlane h p pl restitution friction existing
  | cubez.Collider.plane pl, cubez.Collider.primitive p =>
    againstPlane h p pl restitution friction existing
  | cubez.Collider.primitive p, cubez.Collider.primitive q =>
    againstPrimitive h p q restitution friction existing
  | cubez.Collider.plane _, cubez.Collider.plane _ => (false, existing)

/-- Push the first body of one contact out by the penetration depth. -/
def resolveOne (bodies : Ptr → cubez.RigidBody) (c : cubez.Contact) : Ptr → cubez.RigidBody :=
  match c.Bodies.1 with
  | none => bodies
  | some p =>
    let b := bodies p
    fun q =>
      if q = p then
        { b with Position := ⟨b.Position.x + c.ContactNormal.x * c.Penetration,
                              b.Position.y + c.ContactNormal.y * c.Penetration,
                              b.Position.z + c.ContactNormal.z * c.Penetration⟩ }
      else bodies q

/-- The concrete library. -/
def lib : Lib :=
  { toReal := fun x => x
    float32 := fun x => x
    NewRigidBody := ⟨⟨0, 0, 0⟩, ⟨1, 0, 0, 0⟩, ⟨0, 0, 0⟩, ⟨0, 0, 0⟩, []⟩
    Integrate := Integrate
    SetMass := fun mass b => { b with internal := [mass] }
    SetInfiniteMass := fun b => { b with internal := [0] }
    SetInertiaTensor := fun t b => { b with internal := b.internal ++ t.coeffs }
    BodyCalculateDerivedData := fun b => b
    SetBlockInertiaTensor := fun _ hs mass =>
      ⟨[mass * hs.x, 0, 0, 0, mass * hs.y, 0, 0, 0, mass * hs.z]⟩
    SetInertiaTensorCoeffs := fun _ ix iy iz ixy ixz iyz =>
      ⟨[ix, -ixy, -ixz, -ixy, iy, -iyz, -ixz, -iyz, iz]⟩
    ColliderDerivedData := fun b _ => [b.Position.x, b.Position.y, b.Position.z]
    CheckForCollisions := CheckForCollisions
    CheckAgainstHalfSpace := fun h p pl existing => againstPlane h p pl 0 0 existing
    CheckAgainstSphere := fun h p q existing => againstPrimitive h p q 0 0 existing
    ResolveContacts := fun _ contacts _ bodies => contacts.foldl resolveOne bodies
    CreateSphere := fun radius _ _ => ⟨⟨0, 0, 0⟩, ⟨1, 0, 0, 0⟩, 0, ⟨1, 1, 1, 1⟩, [radius]⟩
    CreateCube := fun x0 y0 z0 x1 y1 z1 =>
      ⟨⟨0, 0, 0⟩, ⟨1, 0, 0, 0⟩, 0, ⟨1, 1, 1, 1⟩, [x0, y0, z0, x1, y1, z1]⟩
    CreatePlaneXZ := fun x0 z0 x1 z1 y =>
      ⟨⟨0, 0, 0⟩, ⟨1, 0, 0, 0⟩, 0, ⟨1, 1, 1, 1⟩, [x0, z0, x1, z1, y]⟩
    LoadShaderProgram := 1 }

end toy

/-! ## Observations on a call trace -/

namespace Call

/-- Is the call a pairwise collision test? -/
def isTest : Call → Bool
  | CheckForCollisions .. => true
  | CheckAgainstHalfSpace .. => true
  | CheckAgainstSphere .. => true
  | _ => false

/-- Is the call an invocation of the resolver? -/
def isResolve : Call → Bool
  | ResolveContacts .. => true
  | _ => false

/-- The body and the duration of an `Integrate` call. -/
def integrated : Call → Option (Ptr × m.Real)
  | Integrate b d => some (b, d)
  | _ => none

/-- The two colliders of a `CheckForCollisions` call, in argument order. -/
def pair : Call → Option (cubez.Collider × cubez.Collider)
  | CheckForCollisions one two .. => some (one, two)
  | _ => none

/-- The flag a collision test returned (`false` for any other call). -/
def reported : Call → Bool
  | CheckForCollisions _ _ _ _ _ found _ => found
  | CheckAgainstHalfSpace _ _ _ found _ => found
  | CheckAgainstSphere _ _ _ found _ => found
  | _ => false

/-- The list a collision test was given. -/
def given : Call → List cubez.Contact
  | CheckForCollisions _ _ _ _ existing _ _ => existing
  | CheckAgainstHalfSpace _ _ existing _ _ => existing
  | CheckAgainstSphere _ _ existing _ _ => existing
  | _ => []

/-- The list a collision test returned. -/
def returned : Call → List cubez.Contact
  | CheckForCollisions _ _ _ _ _ _ contacts => contacts
  | CheckAgainstHalfSpace _ _ _ _ contacts => contacts
  | CheckAgainstSphere _ _ _ _ contacts => contacts
  | _ => []

/-- The contacts a collision test found: what it returned beyond what it was
given. -/
def foundContacts (c : Call) : List cubez.Contact :=
  c.returned.drop c.given.length

end Call

/-- How often the resolver is invoked in a trace. -/
def resolveCount (t : List Call) : Nat :=
  (t.filter Call.isResolve).length

/-- The `Integrate` calls of a trace, in order. -/
def integrateCalls (t : List Call) : List (Ptr × m.Real) :=
  t.filterMap Call.integrated

/-- The collider pairs of the `CheckForCollisions` calls of a trace, in order. -/
def testedPairs (t : List Call) : List (cubez.Collider × cubez.Collider) :=
  t.filterMap Call.pair

/-- The four calls `updateObjects` makes for one entity. -/
def entityCalls (h : Heap) (duration : m.Real) (e : Ptr) : List Call :=
  [Call.Integrate (h.GetBody (h.entities e).Collider) duration,
   Call.CalculateDerivedData (h.entities e).Collider,
   Call.SetGlVector3 (h.entities e).Node (h.GetBody (h.entities e).Collider),
   Call.SetGlQuat (h.entities e).Node (h.GetBody (h.entities e).Collider)]

/-- Two heaps with the same pointer structure: same entities, same body for
every collider, same next free address. -/
def SamePointers (h h' : Heap) : Prop :=
  h'.entities = h.entities ∧ (∀ c, h'.GetBody c = h.GetBody c) ∧ h'.next = h.next

namespace ballistic

/-- The tests `generateContacts` issues for one bullet, in order: ground, cube,
backboard, then every list entry that is not this bullet. -/
def bulletPairs (w : World) (groundPlane : cubez.CollisionPlane) (bullet : Ptr) :
    List (cubez.Collider × cubez.Collider) :=
  let bc := cubez.Collider.primitive (w.heap.entities bullet).Collider
  [(bc, cubez.Collider.plane groundPlane),
   (cubez.Collider.primitive (w.heap.entities w.cube).Collider, bc),
   (cubez.Collider.primitive (w.heap.entities w.backboard).Collider, bc)] ++
  (w.bullets.filter (fun bullet2 => bullet2 ≠ bullet)).map
    (fun bullet2 => (cubez.Collider.primitive (w.heap.entities bullet2).Collider, bc))

/-- The plane `generateContacts` builds on every call. -/
def tickPlane : cubez.CollisionPlane :=
  cubez.NewCollisionPlane ⟨0.0, 1.0, 0.0⟩ 0.0

end ballistic

/-! ## The detection contract of the library -/

/-- One test result honours the contract for the list `cs` it was given: the
returned list is `cs` extended at the end, and the flag is `true` exactly when
something was added. -/
def Reports (cs : List cubez.Contact) (res : Bool × List cubez.Contact) : Prop :=
  cs <+: res.2 ∧ (res.1 = true ↔ res.2 ≠ cs)

/-- Every pairwise test of the library returns the list it was given extended
at the end with the contacts it found. -/
def Lib.Extends (lib : Lib) : Prop :=
  (∀ h one two r f cs, cs <+: (lib.CheckForCollisions h one two r f cs).2) ∧
  (∀ h p pl cs, cs <+: (lib.CheckAgainstHalfSpace h p pl cs).2) ∧
  (∀ h p q cs, cs <+: (lib.CheckAgainstSphere h p q cs).2)

/-- Every pairwise test of the library extends the list it was given and
reports `true` exactly when it added a contact. -/
def Lib.ReportsContacts (lib : Lib) : Prop :=
  (∀ h one two r f cs, Reports cs (lib.CheckForCollisions h one two r f cs)) ∧
  (∀ h p pl cs, Reports cs (lib.CheckAgainstHalfSpace h p pl cs)) ∧
  (∀ h p q cs, Reports cs (lib.CheckAgainstSphere h p q cs))

/-! ## Concrete worlds -/

namespace toy

/-- The list example right after `main`. -/
def world0 : ballistic.World := ballistic.main lib

/-- The list example after `main` and one `fire`. -/
def world1 : ballistic.World := ballistic.fire lib world0

/-- The list example after `main` and two `fire`s. -/
def world2 : ballistic.World := ballistic.fire lib world1

/-- The older example right after `main`. -/
def single0 : single.World := single.main lib

/-- The older example after `main` and one `fire`. -/
def single1 : single.World := single.fire lib single0

end toy

/-! ## Well-formed and reachable worlds -/

/-- The renderable of entity `e` shows the pose of the body of `e`: its
`Location` is the body's `Position` and its `LocalRotation` the body's
`Orientation`, as the pose-copy helpers write them. -/
def PoseSynced (lib : Lib) (h : Heap) (e : Ptr) : Prop :=
  (h.nodes (h.entities e).Node).Location =
      ex.toVec3 lib (h.bodies (h.GetBody (h.entities e).Collider)).Position ∧
  (h.nodes (h.entities e).Node).LocalRotation =
      ex.toQuat lib (h.bodies (h.GetBody (h.entities e).Collider)).Orientation

instance (lib : Lib) (h : Heap) (e : Ptr) : Decidable (PoseSynced lib h e) := by
  unfold PoseSynced
  infer_instance

namespace ballistic

/-- The entities of the world: the cube, the backboard, the bullets. -/
def World.all (w : World) : List Ptr :=
  w.cube :: w.backboard :: w.bullets

/-- The body of the collider of entity `e`. -/
def World.bodyOf (w : World) (e : Ptr) : Ptr :=
  w.heap.GetBody (w.heap.entities e).Collider

/-- A world in which every entity has a renderable, a collider and a body of its
own, all allocated. -/
def World.WellFormed (w : World) : Prop :=
  w.all.Nodup ∧
  (w.all.map (fun e => (w.heap.entities e).Node)).Nodup ∧
  (w.all.map (fun e => (w.heap.entities e).Collider)).Nodup ∧
  (w.all.map w.bodyOf).Nodup ∧
  ∀ e ∈ w.all, e < w.heap.next ∧ (w.heap.entities e).Node < w.heap.next ∧
    (w.heap.entities e).Collider < w.heap.next ∧ w.bodyOf e < w.heap.next

/-- Modelled from the spec: the render loop `app.RenderLoop()` is not among
the sources; the spec describes a frame loop that invokes the update callback
every tick and delivers key events synchronously within the same loop.  The
worlds the running example can be in are therefore: the one `main` builds, and
from any of them the one after `fire` (`keyCallback` on the space key) and the
one after `updateCallback` for some delta. -/
inductive Reachable (lib : Lib) : World → Prop where
  | main : Reachable lib (main lib)
  | fire {w : World} : Reachable lib w → Reachable lib (fire lib w)
  | tick {w : World} (delta : Rat) : Reachable lib w → Reachable lib (updateCallback lib delta w).1

/-- Is the collider static: a plane, or the collider of the backboard? -/
def isStatic (w : World) (c : cubez.Collider) : Bool :=
  match c with
  | cubez.Collider.plane _ => true
  | cubez.Collider.primitive p => p == (w.heap.entities w.backboard).Collider

/-- A test of a dynamic collider against a static one. -/
def staticTest (w : World) (p : cubez.Collider × cubez.Collider) : Bool :=
  isStatic w p.1 != isStatic w p.2

/-- A test between two dynamic colliders. -/
def dynamicTest (w : World) (p : cubez.Collider × cubez.Collider) : Bool :=
  !isStatic w p.1 && !isStatic w p.2

end ballistic

/-- Does the collision test `c` involve the primitive `p`? -/
def Call.involves (c : Call) (p : Ptr) : Prop :=
  match c with
  | Call.CheckForCollisions one two .. =>
    one = cubez.Collider.primitive p ∨ two = cubez.Collider.primitive p
  | Call.CheckAgainstHalfSpace self .. => self = p
  | Call.CheckAgainstSphere self sphere .. => self = p ∨ sphere = p
  | _ => False

namespace ballistic

/-- The collider of entity `e`, as an interface value. -/
def World.colliderOf (w : World) (e : Ptr) : cubez.Collider :=
  cubez.Collider.primitive (w.heap.entities e).Collider

end ballistic

namespace ballistic

/-- The cube, the backboard and the bullets are pairwise distinct entities with
pairwise distinct colliders. -/
def World.OwnColliders (w : World) : Prop :=
  w.all.Nodup ∧ (w.all.map (fun e => (w.heap.entities e).Collider)).Nodup

end ballistic

namespace toy

/-- The concrete library with collision tests that always report a collision
and add no contact: each returns `true` and the list it was given. -/
def eager : Lib :=
  { lib with
    CheckForCollisions := fun _ _ _ _ _ existing => (true, existing)
    CheckAgainstHalfSpace := fun _ _ _ existing => (true, existing)
    CheckAgainstSphere := fun _ _ _ existing => (true, existing) }

end toy

namespace single

/-- The projectiles the older example simulates: the collider in its one bullet
slot, if the slot is filled. -/
def World.projectiles (w : World) : List Ptr :=
  w.bulletCollider.toList

end single

/-! ## Lemmas: the library steps keep the pointer structure -/

theorem SamePointers.refl (h : Heap) : SamePointers h h :=
  ⟨rfl, fun _ => rfl, rfl⟩

theorem SamePointers.trans {h1 h2 h3 : Heap} (a : SamePointers h1 h2) (b : SamePointers h2 h3) :
    SamePointers h1 h3 :=
  ⟨b.1.trans a.1, fun c => (b.2.1 c).trans (a.2.1 c), b.2.2.trans a.2.2⟩

theorem samePointers_Integrate (lib : Lib) (b : Ptr) (d : m.Real) (s : Sim) :
    SamePointers s.1 (cubez.Integrate lib b d s).1 :=
  ⟨rfl, fun _ => rfl, rfl⟩

theorem samePointers_CalculateDerivedData (lib : Lib) (c : Ptr) (s : Sim) :
    SamePointers s.1 (cubez.CalculateDerivedData lib c s).1 := by
  refine ⟨rfl, fun c' => ?_, rfl⟩
  simp only [cubez.CalculateDerivedData, Heap.GetBody, Heap.setCollider]
  split <;> simp_all

theorem samePointers_SetGlVector3 (lib : Lib) (n b : Ptr) (s : Sim) :
    SamePointers s.1 (ex.SetGlVector3 lib n b s).1 :=
  ⟨rfl, fun _ => rfl, rfl⟩

theorem samePointers_SetGlQuat (lib : Lib) (n b : Ptr) (s : Sim) :
    SamePointers s.1 (ex.SetGlQuat lib n b s).1 :=
  ⟨rfl, fun _ => rfl, rfl⟩

theorem samePointers_ResolveContacts (lib : Lib) (n : Nat) (cs : List cubez.Contact)
    (d : m.Real) (s : Sim) : SamePointers s.1 (cubez.ResolveContacts lib n cs d s).1 :=
  ⟨rfl, fun _ => rfl, rfl⟩

theorem entityCalls_congr {h h' : Heap} (sp : SamePointers h h') (d : m.Real) (e : Ptr) :
    entityCalls h' d e = entityCalls h d e := by
  simp [entityCalls, sp.1, sp.2.1]

namespace ballistic

/-- One round of the bullet loop of `updateObjects` keeps the pointer structure
and appends the four calls of the bullet. -/
theorem updateBullet_spec (lib : Lib) (delta : Rat) (s : Sim) (bullet : Ptr) :
    SamePointers s.1 (updateBullet lib delta s bullet).1 ∧
    (updateBullet lib delta s bullet).2 = s.2 ++ entityCalls s.1 (lib.toReal delta) bullet := by
  constructor
  · unfold updateBullet
    exact (((samePointers_Integrate lib _ _ _).trans
      (samePointers_CalculateDerivedData lib _ _)).trans
      (samePointers_SetGlVector3 lib _ _ _)).trans (samePointers_SetGlQuat lib _ _ _)
  · simp [updateBullet, entityCalls, cubez.Integrate, cubez.CalculateDerivedData,
      ex.SetGlVector3, ex.SetGlQuat, Heap.setBody, Heap.setCollider, Heap.setNode]

/-- The bullet loop of `updateObjects`: pointer structure and calls. -/
theorem updateBullets_spec (lib : Lib) (delta : Rat) (bullets : List Ptr) (s : Sim) :
    SamePointers s.1 (bullets.foldl (updateBullet lib delta) s).1 ∧
    (bullets.foldl (updateBullet lib delta) s).2 =
      s.2 ++ bullets.flatMap (entityCalls s.1 (lib.toReal delta)) := by
  induction bullets generalizing s with
  | nil => exact ⟨SamePointers.refl _, by simp⟩
  | cons b bs ih =>
    obtain ⟨sp, hc⟩ := updateBullet_spec lib delta s b
    obtain ⟨sp', hc'⟩ := ih (updateBullet lib delta s b)
    refine ⟨sp.trans sp', ?_⟩
    have hfun : entityCalls (updateBullet lib delta s b).1 (lib.toReal delta) =
        entityCalls s.1 (lib.toReal delta) := funext (fun e => entityCalls_congr sp _ e)
    simp only [List.foldl_cons, List.flatMap_cons]
    rw [hc', hc, List.append_assoc, hfun]

/-- The calls of `updateObjects`: the four calls of the cube, then the four
calls of each bullet in list order. -/
theorem updateObjects_calls (lib : Lib) (delta : Rat) (w : World) :
    (updateObjects lib delta w).2 =
      (w.cube :: w.bullets).flatMap (entityCalls w.heap (lib.toReal delta)) := by
  have hb := updateBullet_spec lib delta (w.heap, []) w.cube
  have hl := updateBullets_spec lib delta w.bullets (updateBullet lib delta (w.heap, []) w.cube)
  have hfun : entityCalls (updateBullet lib delta (w.heap, []) w.cube).1 (lib.toReal delta) =
      entityCalls w.heap (lib.toReal delta) := funext (fun e => entityCalls_congr hb.1 _ e)
  have : (updateObjects lib delta w).2 =
      (w.bullets.foldl (updateBullet lib delta) (updateBullet lib delta (w.heap, []) w.cube)).2 := rfl
  rw [this, hl.2, hb.2, hfun]
  simp

/-- The heap after `updateObjects` has the pointer structure of the heap
before, and the globals are unchanged. -/
theorem updateObjects_world (lib : Lib) (delta : Rat) (w : World) :
    SamePointers w.heap (updateObjects lib delta w).1.heap ∧
    (updateObjects lib delta w).1.cube = w.cube ∧
    (updateObjects lib delta w).1.backboard = w.backboard ∧
    (updateObjects lib delta w).1.bullets = w.bullets := by
  have hb := updateBullet_spec lib delta (w.heap, []) w.cube
  have hl := updateBullets_spec lib delta w.bullets (updateBullet lib delta (w.heap, []) w.cube)
  exact ⟨hb.1.trans hl.1, rfl, rfl, rfl⟩

end ballistic

/-! ## Lemmas: the detection loops of `ballistic.generateContacts` -/

namespace ballistic

theorem checkPair_eq (lib : Lib) (h : Heap) (one two : cubez.Collider) (g : Gen) :
    checkPair lib h one two g =
      (g.1 || (lib.CheckForCollisions h one two 0.9 0.1 g.2.1).1,
       (lib.CheckForCollisions h one two 0.9 0.1 g.2.1).2,
       g.2.2 ++ [Call.CheckForCollisions one two 0.9 0.1 g.2.1
         (lib.CheckForCollisions h one two 0.9 0.1 g.2.1).1
         (lib.CheckForCollisions h one two 0.9 0.1 g.2.1).2]) := by
  simp only [checkPair, cubez.CheckForCollisions]
  by_cases hx : (lib.CheckForCollisions h one two 0.9 0.1 g.2.1).1 = true <;> simp [hx]

/-- A property of the loop state that every test statement keeps is kept by the
inner bullet loop. -/
theorem checkBullet2_foldl_inv (lib : Lib) (w : World) (P : Gen → Prop)
    (step : ∀ one two g, P g → P (checkPair lib w.heap one two g))
    (bullet : Ptr) (bs : List Ptr) (g : Gen) (hg : P g) :
    P (bs.foldl (checkBullet2 lib w bullet) g) := by
  induction bs generalizing g with
  | nil => exact hg
  | cons b bs ih =>
    refine ih _ ?_
    unfold checkBullet2
    split
    · exact hg
    · exact step _ _ _ hg

/-- A property of the loop state that every test statement keeps is kept by the
outer bullet loop. -/
theorem checkBullet_foldl_inv (lib : Lib) (w : World) (P : Gen → Prop)
    (step : ∀ one two g, P g → P (checkPair lib w.heap one two g))
    (gp : cubez.CollisionPlane) (bs : List Ptr) (g : Gen) (hg : P g) :
    P (bs.foldl (checkBullet lib w gp) g) := by
  induction bs generalizing g with
  | nil => exact hg
  | cons b bs ih =>
    refine ih _ ?_
    unfold checkBullet
    exact checkBullet2_foldl_inv lib w P step _ _ _
      (step _ _ _ (step _ _ _ (step _ _ _ hg)))

/-- A property of the loop state that holds initially and that every test
statement keeps holds when `generateContacts` returns. -/
theorem generateContacts_inv (lib : Lib) (delta : Rat) (w : World) (P : Gen → Prop)
    (init : P (false, [], []))
    (step : ∀ one two g, P g → P (checkPair lib w.heap one two g)) :
    P ((generateContacts lib delta w).1.1, (generateContacts lib delta w).1.2,
       (generateContacts lib delta w).2) := by
  unfold generateContacts
  exact checkBullet_foldl_inv lib w P step _ _ _ (step _ _ _ (step _ _ _ init))

theorem testedPairs_append (t u : List Call) :
    testedPairs (t ++ u) = testedPairs t ++ testedPairs u := by
  simp [testedPairs]

theorem testedPairs_checkPair (lib : Lib) (h : Heap) (one two : cubez.Collider) (g : Gen) :
    testedPairs (checkPair lib h one two g).2.2 = testedPairs g.2.2 ++ [(one, two)] := by
  rw [checkPair_eq]
  simp [testedPairs, Call.pair]

/-- The tests of the inner bullet loop. -/
theorem testedPairs_checkBullet2 (lib : Lib) (w : World) (bullet : Ptr) (bs : List Ptr)
    (g : Gen) :
    testedPairs (bs.foldl (checkBullet2 lib w bullet) g).2.2 =
      testedPairs g.2.2 ++
      (bs.filter (fun bullet2 => bullet2 ≠ bullet)).map
        (fun bullet2 => (cubez.Collider.primitive (w.heap.entities bullet2).Collider,
          cubez.Collider.primitive (w.heap.entities bullet).Collider)) := by
  induction bs generalizing g with
  | nil => simp
  | cons b bs ih =>
    rw [List.foldl_cons, ih]
    by_cases hb : b = bullet
    · simp [checkBullet2, hb]
    · simp [checkBullet2, hb, testedPairs_checkPair]

/-- The tests of one round of the outer bullet loop. -/
theorem testedPairs_checkBullet (lib : Lib) (w : World) (gp : cubez.CollisionPlane)
    (g : Gen) (bullet : Ptr) :
    testedPairs (checkBullet lib w gp g bullet).2.2 =
      testedPairs g.2.2 ++ bulletPairs w gp bullet := by
  unfold checkBullet
  simp only [testedPairs_checkBullet2, testedPairs_checkPair, bulletPairs]
  simp

/-- The tests of the outer bullet loop. -/
theorem testedPairs_checkBullets (lib : Lib) (w : World) (gp : cubez.CollisionPlane)
    (bs : List Ptr) (g : Gen) :
    testedPairs (bs.foldl (checkBullet lib w gp) g).2.2 =
      testedPairs g.2.2 ++ bs.flatMap (bulletPairs w gp) := by
  induction bs generalizing g with
  | nil => simp
  | cons b bs ih =>
    rw [List.foldl_cons, ih, testedPairs_checkBullet]
    simp

/-- The tests of `generateContacts`, in the order they are issued. -/
theorem testedPairs_generateContacts (lib : Lib) (delta : Rat) (w : World) :
    testedPairs (generateContacts lib delta w).2 =
      [(cubez.Collider.primitive (w.heap.entities w.cube).Collider,
          cubez.Collider.plane tickPlane),
       (cubez.Collider.primitive (w.heap.entities w.cube).Collider,
          cubez.Collider.primitive (w.heap.entities w.backboard).Collider)] ++
      w.bullets.flatMap (bulletPairs w tickPlane) := by
  unfold generateContacts
  simp only [testedPairs_checkBullets, testedPairs_checkPair, tickPlane]
  simp [testedPairs]

/-- Every call of `generateContacts` is a `CheckForCollisions`. -/
theorem generateContacts_calls (lib : Lib) (delta : Rat) (w : World) :
    ∀ c ∈ (generateContacts lib delta w).2, ∃ one two r f cs found out,
      c = Call.CheckForCollisions one two r f cs found out := by
  refine generateContacts_inv lib delta w
    (fun g => ∀ c ∈ g.2.2, ∃ one two r f cs found out,
      c = Call.CheckForCollisions one two r f cs found out) ?_ ?_
  · intro c hc
    simp at hc
  · intro one two g hg c hc
    rw [checkPair_eq] at hc
    simp only [List.mem_append, List.mem_singleton] at hc
    rcases hc with hc | hc
    · exact hg c hc
    · exact ⟨_, _, _, _, _, _, _, hc⟩

end ballistic

/-- Under the contract a test keeps "the flag is set exactly when the list is
non-empty". -/
theorem Reports.flag_iff {cs : List cubez.Contact} {res : Bool × List cubez.Contact}
    (hr : Reports cs res) (flag : Bool) (hf : flag = true ↔ cs ≠ []) :
    (flag || res.1) = true ↔ res.2 ≠ [] := by
  obtain ⟨⟨t, ht⟩, hiff⟩ := hr
  by_cases h1 : res.1 = true
  · have hne : res.2 ≠ cs := hiff.mp h1
    have : res.2 ≠ [] := by
      intro h0
      rw [h0] at ht
      have hcs : cs = [] := (List.append_eq_nil.mp ht).1
      exact hne (by rw [h0, hcs])
    simp [h1, this]
  · have heq : res.2 = cs := by
      by_contra hne
      exact h1 (hiff.mpr hne)
    have h1' : res.1 = false := by simpa using h1
    rw [h1', heq, Bool.or_false]
    exact hf

theorem resolveCount_append (t u : List Call) :
    resolveCount (t ++ u) = resolveCount t + resolveCount u := by
  simp [resolveCount]

theorem resolveCount_entityCalls (h : Heap) (d : m.Real) (es : List Ptr) :
    resolveCount (es.flatMap (entityCalls h d)) = 0 := by
  induction es with
  | nil => rfl
  | cons e es ih =>
    rw [List.flatMap_cons, resolveCount_append, ih]
    rfl

theorem integrateCalls_append (t u : List Call) :
    integrateCalls (t ++ u) = integrateCalls t ++ integrateCalls u := by
  simp [integrateCalls]

theorem integrateCalls_entityCalls (h : Heap) (d : m.Real) (es : List Ptr) :
    integrateCalls (es.flatMap (entityCalls h d)) =
      es.map (fun e => (h.GetBody (h.entities e).Collider, d)) := by
  induction es with
  | nil => rfl
  | cons e es ih =>
    rw [List.flatMap_cons, integrateCalls_append, ih]
    rfl

namespace ballistic

theorem resolveCount_generateContacts (lib : Lib) (delta : Rat) (w : World) :
    resolveCount (generateContacts lib delta w).2 = 0 := by
  unfold resolveCount
  rw [List.length_eq_zero, List.filter_eq_nil_iff]
  intro c hc
  obtain ⟨_, _, _, _, _, _, _, rfl⟩ := generateContacts_calls lib delta w c hc
  simp [Call.isResolve]

theorem integrateCalls_generateContacts (lib : Lib) (delta : Rat) (w : World) :
    integrateCalls (generateContacts lib delta w).2 = [] := by
  unfold integrateCalls
  rw [List.filterMap_eq_nil_iff]
  intro c hc
  obtain ⟨_, _, _, _, _, _, _, rfl⟩ := generateContacts_calls lib delta w c hc
  rfl

/-- The calls of one tick: those of `updateObjects`, those of
`generateContacts`, then the resolver call when the flag is set. -/
theorem updateCallback_calls (lib : Lib) (delta : Rat) (w : World) :
    (updateCallback lib delta w).2 =
      (updateObjects lib delta w).2 ++
      (generateContacts lib delta (updateObjects lib delta w).1).2 ++
      (if (generateContacts lib delta (updateObjects lib delta w).1).1.1 = true then
        [Call.ResolveContacts
          ((generateContacts lib delta (updateObjects lib delta w).1).1.2.length * 8)
          (generateContacts lib delta (updateObjects lib delta w).1).1.2 (lib.toReal delta)]
       else []) := by
  unfold updateCallback
  by_cases hf : (generateContacts lib delta (updateObjects lib delta w).1).1.1 = true
  · simp [hf, cubez.ResolveContacts]
  · simp [hf]

/-- The resolver is invoked once when the flag is set and not at all
otherwise. -/
theorem resolveCount_updateCallback (lib : Lib) (delta : Rat) (w : World) :
    resolveCount (updateCallback lib delta w).2 =
      if (generateContacts lib delta (updateObjects lib delta w).1).1.1 = true then 1 else 0 := by
  rw [updateCallback_calls, resolveCount_append, resolveCount_append,
    resolveCount_generateContacts, updateObjects_calls, resolveCount_entityCalls]
  split <;> rfl

/-- Under the detection contract the flag `generateContacts` returns is set
exactly when the list it returns is non-empty. -/
theorem generateContacts_flag_iff (lib : Lib) (hlib : lib.ReportsContacts) (delta : Rat)
    (w : World) :
    (generateContacts lib delta w).1.1 = true ↔ (generateContacts lib delta w).1.2 ≠ [] := by
  refine generateContacts_inv lib delta w (fun g => g.1 = true ↔ g.2.1 ≠ []) (by simp) ?_
  intro one two g hg
  rw [checkPair_eq]
  exact (hlib.1 w.heap one two 0.9 0.1 g.2.1).flag_iff g.1 hg

end ballistic

namespace single

/-- The calls of `generateContacts`: one test without a bullet, three with. -/
theorem generateContacts_calls_one (lib : Lib) (delta : Rat) (w : World) :
    ∀ c ∈ (generateContacts lib delta w).2, c.isTest = true ∧ c.isResolve = false ∧
      c.integrated = none := by
  unfold generateContacts
  cases w.bulletCollider <;>
    simp [cubez.CheckAgainstHalfSpace, cubez.CheckAgainstSphere, Call.isTest, Call.isResolve,
      Call.integrated]

/-- The calls of `updateObjects` are no resolver calls. -/
theorem resolveCount_updateObjects_one (lib : Lib) (delta : Rat) (w : World) :
    resolveCount (updateObjects lib delta w).2 = 0 := by
  unfold updateObjects
  cases w.bulletCollider <;> cases w.bullet <;> rfl

theorem resolveCount_generateContacts_one (lib : Lib) (delta : Rat) (w : World) :
    resolveCount (generateContacts lib delta w).2 = 0 := by
  unfold resolveCount
  rw [List.length_eq_zero, List.filter_eq_nil_iff]
  intro c hc
  simp [(generateContacts_calls_one lib delta w c hc).2.1]

/-- The calls of one tick: those of `updateObjects`, those of
`generateContacts`, then the resolver call when the flag is set. -/
theorem updateCallback_calls_one (lib : Lib) (delta : Rat) (w : World) :
    (updateCallback lib delta w).2 =
      (updateObjects lib delta w).2 ++
      (generateContacts lib delta (updateObjects lib delta w).1).2 ++
      (if (generateContacts lib delta (updateObjects lib delta w).1).1.1 = true then
        [Call.ResolveContacts
          ((generateContacts lib delta (updateObjects lib delta w).1).1.2.length * 8)
          (generateContacts lib delta (updateObjects lib delta w).1).1.2 (lib.toReal delta)]
       else []) := by
  unfold updateCallback
  by_cases hf : (generateContacts lib delta (updateObjects lib delta w).1).1.1 = true
  · simp [hf, cubez.ResolveContacts]
  · simp [hf]

theorem resolveCount_updateCallback_one (lib : Lib) (delta : Rat) (w : World) :
    resolveCount (updateCallback lib delta w).2 =
      if (generateContacts lib delta (updateObjects lib delta w).1).1.1 = true then 1 else 0 := by
  rw [updateCallback_calls_one, resolveCount_append, resolveCount_append,
    resolveCount_generateContacts_one, resolveCount_updateObjects_one]
  split <;> rfl

/-- Under the detection contract the flag `generateContacts` returns is set
exactly when the list it returns is non-empty. -/
theorem generateContacts_flag_iff_one (lib : Lib) (hlib : lib.ReportsContacts) (delta : Rat)
    (w : World) :
    (generateContacts lib delta w).1.1 = true ↔ (generateContacts lib delta w).1.2 ≠ [] := by
  have h0 := hlib.2.1 w.heap (w.heap.entities w.cube).Collider
    (cubez.NewCollisionPlane ⟨0.0, 1.0, 0.0⟩ 0.0) []
  have f0 := h0.flag_iff false (by simp)
  unfold generateContacts
  cases hb : w.bulletCollider with
  | none => simpa [cubez.CheckAgainstHalfSpace] using f0
  | some bc =>
    have h1 := hlib.2.1 w.heap bc (cubez.NewCollisionPlane ⟨0.0, 1.0, 0.0⟩ 0.0)
      (lib.CheckAgainstHalfSpace w.heap (w.heap.entities w.cube).Collider
        (cubez.NewCollisionPlane ⟨0.0, 1.0, 0.0⟩ 0.0) []).2
    have f1 := h1.flag_iff _ (by simpa using f0)
    have h2 := hlib.2.2 w.heap (w.heap.entities w.cube).Collider bc
      (lib.CheckAgainstHalfSpace w.heap bc (cubez.NewCollisionPlane ⟨0.0, 1.0, 0.0⟩ 0.0)
        (lib.CheckAgainstHalfSpace w.heap (w.heap.entities w.cube).Collider
          (cubez.NewCollisionPlane ⟨0.0, 1.0, 0.0⟩ 0.0) []).2).2
    have f2 := h2.flag_iff _ f1
    simpa [cubez.CheckAgainstHalfSpace, cubez.CheckAgainstSphere] using f2

end single

/-! ## The concrete library honours the detection contract -/

theorem toy_againstPlane_reports (h : Heap) (p : Ptr) (pl : cubez.CollisionPlane)
    (r f : m.Real) (cs : List cubez.Contact) : Reports cs (toy.againstPlane h p pl r f cs) := by
  unfold toy.againstPlane Reports
  dsimp only
  split
  · exact ⟨List.prefix_append _ _, by simp⟩
  · exact ⟨List.prefix_refl _, by simp⟩

theorem toy_againstPrimitive_reports (h : Heap) (p q : Ptr)
    (r f : m.Real) (cs : List cubez.Contact) :
    Reports cs (toy.againstPrimitive h p q r f cs) := by
  unfold toy.againstPrimitive Reports
  dsimp only
  split
  · exact ⟨List.prefix_append _ _, by simp⟩
  · exact ⟨List.prefix_refl _, by simp⟩

theorem toy_reportsContacts : toy.lib.ReportsContacts := by
  refine ⟨?_, ?_, ?_⟩
  · intro h one two r f cs
    show Reports cs (toy.CheckForCollisions h one two r f cs)
    unfold toy.CheckForCollisions
    cases one <;> cases two
    · exact toy_againstPrimitive_reports ..
    · exact toy_againstPlane_reports ..
    · exact toy_againstPlane_reports ..
    · exact ⟨List.prefix_refl _, by simp⟩
  · intro h p pl cs
    exact toy_againstPlane_reports ..
  · intro h p q cs
    exact toy_againstPrimitive_reports ..

theorem toy_extends : toy.lib.Extends :=
  ⟨fun h one two r f cs => (toy_reportsContacts.1 h one two r f cs).1,
   fun h p pl cs => (toy_reportsContacts.2.1 h p pl cs).1,
   fun h p q cs => (toy_reportsContacts.2.2 h p q cs).1⟩

/-! ## Claims about the resolver call -/

/-- C1, counterexample: with a library whose tests report a collision without
adding a contact, a tick right after `main` detects zero contacts and still
invokes the resolver once, in either example: `updateCallback` looks at the
flag `generateContacts` returns, not at the contact list. -/
theorem resolve_on_zero_contacts_counterexample :
    ballistic.Reachable toy.eager (ballistic.main toy.eager) ∧
    (ballistic.generateContacts toy.eager 1
      (ballistic.updateObjects toy.eager 1 (ballistic.main toy.eager)).1).1.2 = [] ∧
    resolveCount (ballistic.updateCallback toy.eager 1 (ballistic.main toy.eager)).2 = 1 ∧
    (single.generateContacts toy.eager 1
      (single.updateObjects toy.eager 1 (single.main toy.eager)).1).1.2 = [] ∧
    resolveCount (single.updateCallback toy.eager 1 (single.main toy.eager)).2 = 1 :=
  ⟨ballistic.Reachable.main, by decide!, by decide!, by decide!, by decide!⟩

/-- C1, amended: in one tick of either example the resolver is invoked exactly
once when the flag `generateContacts` returns is `true` and not at all when it
is `false`; and for a library whose tests return the list they were given
extended at the end and report `true` exactly when they added a contact, the
resolver is not invoked when the contact list is empty and is invoked exactly
once when it is not. -/
theorem resolve_invoked_iff_contacts (lib : Lib) (delta : Rat) :
    (∀ w : ballistic.World,
      (resolveCount (ballistic.updateCallback lib delta w).2 =
        if (ballistic.generateContacts lib delta (ballistic.updateObjects lib delta w).1).1.1 = true
          then 1 else 0) ∧
      (lib.ReportsContacts →
        ((ballistic.generateContacts lib delta (ballistic.updateObjects lib delta w).1).1.2 = [] →
          resolveCount (ballistic.updateCallback lib delta w).2 = 0) ∧
        ((ballistic.generateContacts lib delta (ballistic.updateObjects lib delta w).1).1.2 ≠ [] →
          resolveCount (ballistic.updateCallback lib delta w).2 = 1))) ∧
    (∀ w : single.World,
      (resolveCount (single.updateCallback lib delta w).2 =
        if (single.generateContacts lib delta (single.updateObjects lib delta w).1).1.1 = true
          then 1 else 0) ∧
      (lib.ReportsContacts →
        ((single.generateContacts lib delta (single.updateObjects lib delta w).1).1.2 = [] →
          resolveCount (single.updateCallback lib delta w).2 = 0) ∧
        ((single.generateContacts lib delta (single.updateObjects lib delta w).1).1.2 ≠ [] →
          resolveCount (single.updateCallback lib delta w).2 = 1))) := by
  refine ⟨fun w => ⟨ballistic.resolveCount_updateCallback lib delta w, fun hlib => ?_⟩,
    fun w => ⟨single.resolveCount_updateCallback_one lib delta w, fun hlib => ?_⟩⟩
  · have hiff := ballistic.generateContacts_flag_iff lib hlib delta
      (ballistic.updateObjects lib delta w).1
    rw [ballistic.resolveCount_updateCallback]
    constructor
    · intro h0
      have : ¬ (ballistic.generateContacts lib delta
          (ballistic.updateObjects lib delta w).1).1.1 = true := fun hf => hiff.mp hf h0
      simp [this]
    · intro h1
      simp [hiff.mpr h1]
  · have hiff := single.generateContacts_flag_iff_one lib hlib delta
      (single.updateObjects lib delta w).1
    rw [single.resolveCount_updateCallback_one]
    constructor
    · intro h0
      have : ¬ (single.generateContacts lib delta
          (single.updateObjects lib delta w).1).1.1 = true := fun hf => hiff.mp hf h0
      simp [this]
    · intro h1
      simp [hiff.mpr h1]

/-- Witness for C1, amended: with the concrete library, a tick of one second after one
shot finds the bullet below the ground and invokes the resolver once in either
example; a tick right after `main` finds nothing and does not invoke it. -/
theorem resolve_invoked_iff_contacts_witness :
    toy.lib.ReportsContacts ∧
    (ballistic.generateContacts toy.lib 1 (ballistic.updateObjects toy.lib 1 toy.world1).1).1.2 ≠ [] ∧
    resolveCount (ballistic.updateCallback toy.lib 1 toy.world1).2 = 1 ∧
    (ballistic.generateContacts toy.lib 1 (ballistic.updateObjects toy.lib 1 toy.world0).1).1.2 = [] ∧
    resolveCount (ballistic.updateCallback toy.lib 1 toy.world0).2 = 0 ∧
    (single.generateContacts toy.lib 1 (single.updateObjects toy.lib 1 toy.single1).1).1.2 ≠ [] ∧
    resolveCount (single.updateCallback toy.lib 1 toy.single1).2 = 1 ∧
    (single.generateContacts toy.lib 1 (single.updateObjects toy.lib 1 toy.single0).1).1.2 = [] ∧
    resolveCount (single.updateCallback toy.lib 1 toy.single0).2 = 0 :=
  ⟨toy_reportsContacts, by decide!,
   (((resolve_invoked_iff_contacts toy.lib 1).1 toy.world1).2 toy_reportsContacts).2 (by decide!),
   by decide!,
   (((resolve_invoked_iff_contacts toy.lib 1).1 toy.world0).2 toy_reportsContacts).1 (by decide!),
   by decide!,
   (((resolve_invoked_iff_contacts toy.lib 1).2 toy.single1).2 toy_reportsContacts).2 (by decide!),
   by decide!,
   (((resolve_invoked_iff_contacts toy.lib 1).2 toy.single0).2 toy_reportsContacts).1 (by decide!)⟩

theorem resolve_not_mem_entityCalls (h : Heap) (d : m.Real) (es : List Ptr) (n : Nat)
    (cs : List cubez.Contact) (d' : m.Real) :
    Call.ResolveContacts n cs d' ∉ es.flatMap (entityCalls h d) := by
  simp [List.mem_flatMap, entityCalls]

theorem integrate_mem_entityCalls (h : Heap) (d : m.Real) (es : List Ptr) (b : Ptr)
    (d' : m.Real) (hm : Call.Integrate b d' ∈ es.flatMap (entityCalls h d)) :
    d' = d ∧ ∃ e ∈ es, b = h.GetBody (h.entities e).Collider := by
  simp only [List.mem_flatMap, entityCalls, List.mem_cons, List.mem_singleton] at hm
  obtain ⟨e, he, hc⟩ := hm
  simp at hc
  exact ⟨hc.2, e, he, hc.1⟩

/-- A resolver call in the trace of a tick of the list example is the one
guarded by the flag. -/
theorem resolve_mem_updateCallback (lib : Lib) (delta : Rat) (w : ballistic.World) (n : Nat)
    (cs : List cubez.Contact) (d : m.Real)
    (hm : Call.ResolveContacts n cs d ∈ (ballistic.updateCallback lib delta w).2) :
    n = 8 * (ballistic.generateContacts lib delta (ballistic.updateObjects lib delta w).1).1.2.length ∧
    cs = (ballistic.generateContacts lib delta (ballistic.updateObjects lib delta w).1).1.2 ∧
    d = lib.toReal delta := by
  rw [ballistic.updateCallback_calls, List.mem_append, List.mem_append] at hm
  rcases hm with (hm | hm) | hm
  · rw [ballistic.updateObjects_calls] at hm
    exact absurd hm (resolve_not_mem_entityCalls _ _ _ _ _ _)
  · obtain ⟨_, _, _, _, _, _, _, hc⟩ := ballistic.generateContacts_calls lib delta _ _ hm
    cases hc
  · split at hm
    · simp only [List.mem_singleton, Call.ResolveContacts.injEq] at hm
      exact ⟨by rw [hm.1, Nat.mul_comm], hm.2.1, hm.2.2⟩
    · simp at hm

/-! ### Rewriting rules for the library steps -/

theorem calls_Integrate (lib : Lib) (b : Ptr) (d : m.Real) (s : Sim) :
    (cubez.Integrate lib b d s).2 = s.2 ++ [Call.Integrate b d] := rfl

theorem calls_CalculateDerivedData (lib : Lib) (c : Ptr) (s : Sim) :
    (cubez.CalculateDerivedData lib c s).2 = s.2 ++ [Call.CalculateDerivedData c] := rfl

theorem calls_SetGlVector3 (lib : Lib) (n b : Ptr) (s : Sim) :
    (ex.SetGlVector3 lib n b s).2 = s.2 ++ [Call.SetGlVector3 n b] := rfl

theorem calls_SetGlQuat (lib : Lib) (n b : Ptr) (s : Sim) :
    (ex.SetGlQuat lib n b s).2 = s.2 ++ [Call.SetGlQuat n b] := rfl

theorem getBody_Integrate (lib : Lib) (b : Ptr) (d : m.Real) (s : Sim) (c : Ptr) :
    (cubez.Integrate lib b d s).1.GetBody c = s.1.GetBody c := rfl

theorem getBody_CalculateDerivedData (lib : Lib) (c' : Ptr) (s : Sim) (c : Ptr) :
    (cubez.CalculateDerivedData lib c' s).1.GetBody c = s.1.GetBody c :=
  (samePointers_CalculateDerivedData lib c' s).2.1 c

theorem getBody_SetGlVector3 (lib : Lib) (n b : Ptr) (s : Sim) (c : Ptr) :
    (ex.SetGlVector3 lib n b s).1.GetBody c = s.1.GetBody c := rfl

theorem getBody_SetGlQuat (lib : Lib) (n b : Ptr) (s : Sim) (c : Ptr) :
    (ex.SetGlQuat lib n b s).1.GetBody c = s.1.GetBody c := rfl

/-- The older `updateObjects` treats its cube as the list example treats an
entity, then looks at the bullet. -/
theorem updateObjects_eq_one (lib : Lib) (delta : Rat) (w : single.World) :
    single.updateObjects lib delta w =
      let s := ballistic.updateBullet lib delta (w.heap, []) w.cube
      let s :=
        match w.bulletCollider with
        | none => s
        | some bulletCollider =>
          let s := cubez.Integrate lib (s.1.GetBody bulletCollider) (lib.toReal delta) s
          let s := cubez.CalculateDerivedData lib bulletCollider s
          match w.bullet with
          | none => s
          | some bullet =>
            let s := ex.SetGlVector3 lib bullet (s.1.GetBody bulletCollider) s
            ex.SetGlQuat lib bullet (s.1.GetBody bulletCollider) s
      ({ w with heap := s.1 }, s.2) := rfl

/-- The calls of `updateObjects` in the older example. -/
theorem updateObjects_calls_one (lib : Lib) (delta : Rat) (w : single.World) :
    (single.updateObjects lib delta w).2 =
      entityCalls w.heap (lib.toReal delta) w.cube ++
      (match w.bulletCollider with
       | none => []
       | some bc =>
         [Call.Integrate (w.heap.GetBody bc) (lib.toReal delta), Call.CalculateDerivedData bc] ++
         (match w.bullet with
          | none => []
          | some n => [Call.SetGlVector3 n (w.heap.GetBody bc),
                       Call.SetGlQuat n (w.heap.GetBody bc)])) := by
  have hcube := ballistic.updateBullet_spec lib delta (w.heap, []) w.cube
  have gb : ∀ c, (ballistic.updateBullet lib delta (w.heap, []) w.cube).1.GetBody c =
      w.heap.GetBody c := hcube.1.2.1
  rw [updateObjects_eq_one]
  cases w.bulletCollider with
  | none => simpa using hcube.2
  | some bc =>
    cases w.bullet with
    | none =>
      simp [calls_Integrate, calls_CalculateDerivedData, gb, hcube.2]
    | some n =>
      simp [calls_Integrate, calls_CalculateDerivedData, calls_SetGlVector3, calls_SetGlQuat,
        getBody_Integrate, getBody_CalculateDerivedData, getBody_SetGlVector3, gb, hcube.2]

/-- A resolver call in the trace of a tick of the older example is the one
guarded by the flag. -/
theorem resolve_mem_updateCallback_one (lib : Lib) (delta : Rat) (w : single.World) (n : Nat)
    (cs : List cubez.Contact) (d : m.Real)
    (hm : Call.ResolveContacts n cs d ∈ (single.updateCallback lib delta w).2) :
    n = 8 * (single.generateContacts lib delta (single.updateObjects lib delta w).1).1.2.length ∧
    cs = (single.generateContacts lib delta (single.updateObjects lib delta w).1).1.2 ∧
    d = lib.toReal delta := by
  rw [single.updateCallback_calls_one, List.mem_append, List.mem_append] at hm
  rcases hm with (hm | hm) | hm
  · rw [updateObjects_calls_one] at hm
    exfalso
    cases hbc : w.bulletCollider <;> cases hbn : w.bullet <;>
      simp [entityCalls, hbc, hbn] at hm
  · have := (single.generateContacts_calls_one lib delta _ _ hm).2.1
    simp [Call.isResolve] at this
  · split at hm
    · simp only [List.mem_singleton, Call.ResolveContacts.injEq] at hm
      exact ⟨by rw [hm.1, Nat.mul_comm], hm.2.1, hm.2.2⟩
    · simp at hm

/-- C2: whenever a tick of either example invokes the resolver, the iteration
budget is 8 times the length of the contact list `generateContacts` returned in
that tick, the contact list passed is that list, and the time step is the
converted delta, the same value every `Integrate` call of `updateObjects`
received in that tick (the cube's body is always among them). -/
theorem resolve_arguments (lib : Lib) (delta : Rat) :
    (∀ (w : ballistic.World) (n : Nat) (cs : List cubez.Contact) (d : m.Real),
      Call.ResolveContacts n cs d ∈ (ballistic.updateCallback lib delta w).2 →
      n = 8 * (ballistic.generateContacts lib delta
            (ballistic.updateObjects lib delta w).1).1.2.length ∧
      cs = (ballistic.generateContacts lib delta (ballistic.updateObjects lib delta w).1).1.2 ∧
      d = lib.toReal delta ∧
      Call.Integrate (w.heap.GetBody (w.heap.entities w.cube).Collider) d ∈
        (ballistic.updateObjects lib delta w).2 ∧
      ∀ b d', Call.Integrate b d' ∈ (ballistic.updateObjects lib delta w).2 → d' = d) ∧
    (∀ (w : single.World) (n : Nat) (cs : List cubez.Contact) (d : m.Real),
      Call.ResolveContacts n cs d ∈ (single.updateCallback lib delta w).2 →
      n = 8 * (single.generateContacts lib delta
            (single.updateObjects lib delta w).1).1.2.length ∧
      cs = (single.generateContacts lib delta (single.updateObjects lib delta w).1).1.2 ∧
      d = lib.toReal delta ∧
      Call.Integrate (w.heap.GetBody (w.heap.entities w.cube).Collider) d ∈
        (single.updateObjects lib delta w).2 ∧
      ∀ b d', Call.Integrate b d' ∈ (single.updateObjects lib delta w).2 → d' = d) := by
  constructor
  · intro w n cs d hm
    obtain ⟨hn, hcs, hd⟩ := resolve_mem_updateCallback lib delta w n cs d hm
    refine ⟨hn, hcs, hd, ?_, ?_⟩
    · rw [ballistic.updateObjects_calls, hd]
      simp [entityCalls]
    · intro b d' hb
      rw [ballistic.updateObjects_calls] at hb
      rw [hd]
      exact (integrate_mem_entityCalls _ _ _ _ _ hb).1
  · intro w n cs d hm
    obtain ⟨hn, hcs, hd⟩ := resolve_mem_updateCallback_one lib delta w n cs d hm
    refine ⟨hn, hcs, hd, ?_, ?_⟩
    · rw [updateObjects_calls_one, hd]
      simp [entityCalls]
    · intro b d' hb
      rw [updateObjects_calls_one] at hb
      rw [hd]
      cases hbc : w.bulletCollider <;> cases hbn : w.bullet <;>
        simp [entityCalls, hbc, hbn] at hb <;> tauto

/-- Witness for C2: with the concrete library, a tick of one second after one
shot invokes the resolver on the one ground contact of the bullet with budget
8 and time step 1, in either example. -/
theorem resolve_arguments_witness :
    (∃ cs, Call.ResolveContacts 8 cs 1 ∈ (ballistic.updateCallback toy.lib 1 toy.world1).2 ∧
      cs = (ballistic.generateContacts toy.lib 1
        (ballistic.updateObjects toy.lib 1 toy.world1).1).1.2 ∧ cs.length = 1 ∧
      ∀ b d', Call.Integrate b d' ∈ (ballistic.updateObjects toy.lib 1 toy.world1).2 → d' = 1) ∧
    (∃ cs, Call.ResolveContacts 8 cs 1 ∈ (single.updateCallback toy.lib 1 toy.single1).2 ∧
      cs = (single.generateContacts toy.lib 1
        (single.updateObjects toy.lib 1 toy.single1).1).1.2 ∧ cs.length = 1 ∧
      ∀ b d', Call.Integrate b d' ∈ (single.updateObjects toy.lib 1 toy.single1).2 → d' = 1) :=
  ⟨⟨_, by decide!,
    ((resolve_arguments toy.lib 1).1 toy.world1 8
      (ballistic.generateContacts toy.lib 1 (ballistic.updateObjects toy.lib 1 toy.world1).1).1.2
      1 (by decide!)).2.1, by decide!,
    ((resolve_arguments toy.lib 1).1 toy.world1 8
      (ballistic.generateContacts toy.lib 1 (ballistic.updateObjects toy.lib 1 toy.world1).1).1.2
      1 (by decide!)).2.2.2.2⟩,
   ⟨_, by decide!,
    ((resolve_arguments toy.lib 1).2 toy.single1 8
      (single.generateContacts toy.lib 1 (single.updateObjects toy.lib 1 toy.single1).1).1.2
      1 (by decide!)).2.1, by decide!,
    ((resolve_arguments toy.lib 1).2 toy.single1 8
      (single.generateContacts toy.lib 1 (single.updateObjects toy.lib 1 toy.single1).1).1.2
      1 (by decide!)).2.2.2.2⟩⟩

/-! ## Claims about the accumulated contact list -/

theorem given_append_found {cs out : List cubez.Contact} (h : cs <+: out) :
    cs ++ out.drop cs.length = out :=
  List.prefix_iff_eq_append.mp h

/-- The accumulation invariant of the detection loops: the list so far is the
concatenation of what the tests so far found, and the flag so far is set
exactly when one of them reported a collision. -/
theorem accumulate_checkPair (lib : Lib) (hlib : lib.Extends) (h : Heap)
    (one two : cubez.Collider) (g : ballistic.Gen)
    (hg : g.2.1 = g.2.2.flatMap Call.foundContacts ∧
      (g.1 = true ↔ ∃ c ∈ g.2.2, c.reported = true)) :
    (ballistic.checkPair lib h one two g).2.1 =
        (ballistic.checkPair lib h one two g).2.2.flatMap Call.foundContacts ∧
    ((ballistic.checkPair lib h one two g).1 = true ↔
        ∃ c ∈ (ballistic.checkPair lib h one two g).2.2, c.reported = true) := by
  rw [ballistic.checkPair_eq]
  have hp := hlib.1 h one two 0.9 0.1 g.2.1
  constructor
  · simp only [List.flatMap_append, List.flatMap_cons, List.flatMap_nil, List.append_nil]
    rw [← hg.1]
    simp only [Call.foundContacts, Call.returned, Call.given]
    exact (given_append_found hp).symm
  · simp only [Bool.or_eq_true, List.mem_append, List.mem_singleton]
    constructor
    · rintro (h1 | h1)
      · obtain ⟨c, hc, hr⟩ := hg.2.mp h1
        exact ⟨c, Or.inl hc, hr⟩
      · exact ⟨_, Or.inr rfl, h1⟩
    · rintro ⟨c, hc | hc, hr⟩
      · exact Or.inl (hg.2.mpr ⟨c, hc, hr⟩)
      · rw [hc] at hr
        exact Or.inr hr

/-- C10: if every pairwise test returns the list it was given extended at the
end with the contacts it found, then in either example the list
`generateContacts` returns is the concatenation, in test order, of the contacts
found by the tests of that run (every call of the run is a test, and the first
is given the empty list), and the flag it returns is `true` exactly when one of
those tests reported a collision. -/
theorem contacts_accumulate (lib : Lib) (hlib : lib.Extends) (delta : Rat) :
    (∀ w : ballistic.World,
      (ballistic.generateContacts lib delta w).1.2 =
        (ballistic.generateContacts lib delta w).2.flatMap Call.foundContacts ∧
      ((ballistic.generateContacts lib delta w).1.1 = true ↔
        ∃ c ∈ (ballistic.generateContacts lib delta w).2, c.reported = true) ∧
      (∀ c ∈ (ballistic.generateContacts lib delta w).2, c.isTest = true) ∧
      ((ballistic.generateContacts lib delta w).2.head?.map Call.given = some [])) ∧
    (∀ w : single.World,
      (single.generateContacts lib delta w).1.2 =
        (single.generateContacts lib delta w).2.flatMap Call.foundContacts ∧
      ((single.generateContacts lib delta w).1.1 = true ↔
        ∃ c ∈ (single.generateContacts lib delta w).2, c.reported = true) ∧
      (∀ c ∈ (single.generateContacts lib delta w).2, c.isTest = true) ∧
      ((single.generateContacts lib delta w).2.head?.map Call.given = some [])) := by
  constructor
  · intro w
    have hacc := ballistic.generateContacts_inv lib delta w
      (fun g => g.2.1 = g.2.2.flatMap Call.foundContacts ∧
        (g.1 = true ↔ ∃ c ∈ g.2.2, c.reported = true))
      (by simp) (fun one two g hg => accumulate_checkPair lib hlib w.heap one two g hg)
    refine ⟨hacc.1, hacc.2, ?_, ?_⟩
    · intro c hc
      obtain ⟨_, _, _, _, _, _, _, rfl⟩ := ballistic.generateContacts_calls lib delta w c hc
      rfl
    · have hhead := ballistic.generateContacts_inv lib delta w
        (fun g => (g.2.1 = [] ∧ g.2.2 = []) ∨ g.2.2.head?.map Call.given = some [])
        (Or.inl ⟨rfl, rfl⟩)
        (fun one two g hg => by
          rw [ballistic.checkPair_eq]
          right
          rcases hg with ⟨h1, h2⟩ | hg
          · simp [h1, h2, Call.given]
          · cases ht : g.2.2 with
            | nil => simp [ht] at hg
            | cons c t => simpa [ht] using hg)
      rcases hhead with ⟨_, h2⟩ | hhead
      · have hp := ballistic.testedPairs_generateContacts lib delta w
        simp only at h2
        rw [h2] at hp
        simp [testedPairs] at hp
      · exact hhead
  · intro w
    unfold single.generateContacts
    cases w.bulletCollider with
    | none =>
      have h0 := hlib.2.1 w.heap (w.heap.entities w.cube).Collider
        (cubez.NewCollisionPlane ⟨0.0, 1.0, 0.0⟩ 0.0) []
      simp [cubez.CheckAgainstHalfSpace, Call.foundContacts, Call.given, Call.returned,
        Call.reported, Call.isTest]
    | some bc =>
      have h0 := given_append_found (hlib.2.1 w.heap (w.heap.entities w.cube).Collider
        (cubez.NewCollisionPlane ⟨0.0, 1.0, 0.0⟩ 0.0) [])
      have h1 := given_append_found (hlib.2.1 w.heap bc
        (cubez.NewCollisionPlane ⟨0.0, 1.0, 0.0⟩ 0.0)
        (lib.CheckAgainstHalfSpace w.heap (w.heap.entities w.cube).Collider
          (cubez.NewCollisionPlane ⟨0.0, 1.0, 0.0⟩ 0.0) []).2)
      have h2 := given_append_found (hlib.2.2 w.heap (w.heap.entities w.cube).Collider bc
        (lib.CheckAgainstHalfSpace w.heap bc (cubez.NewCollisionPlane ⟨0.0, 1.0, 0.0⟩ 0.0)
          (lib.CheckAgainstHalfSpace w.heap (w.heap.entities w.cube).Collider
            (cubez.NewCollisionPlane ⟨0.0, 1.0, 0.0⟩ 0.0) []).2).2)
      refine ⟨?_, ?_, ?_, ?_⟩
      · simp only [cubez.CheckAgainstHalfSpace, cubez.CheckAgainstSphere, List.nil_append,
          List.cons_append, List.flatMap_cons, List.flatMap_nil, List.append_nil,
          Call.foundContacts, Call.given, Call.returned, List.length_nil, List.drop_zero]
        simp only [List.length_nil, List.drop_zero, List.nil_append] at h0
        rw [← List.append_assoc, h1, h2]
      · simp [cubez.CheckAgainstHalfSpace, cubez.CheckAgainstSphere, Call.reported, or_assoc]
      · simp [cubez.CheckAgainstHalfSpace, cubez.CheckAgainstSphere, Call.isTest]
      · simp [cubez.CheckAgainstHalfSpace, cubez.CheckAgainstSphere, Call.given]

/-- Witness for C10: the concrete library extends the list it is given; after
two shots and a tick of one second, the list example finds the two bullets on
the ground and against each other. -/
theorem contacts_accumulate_witness :
    toy.lib.Extends ∧
    (ballistic.generateContacts toy.lib 1 (ballistic.updateObjects toy.lib 1 toy.world2).1).1.2 =
      (ballistic.generateContacts toy.lib 1
        (ballistic.updateObjects toy.lib 1 toy.world2).1).2.flatMap Call.foundContacts ∧
    (ballistic.generateContacts toy.lib 1
      (ballistic.updateObjects toy.lib 1 toy.world2).1).1.2.length = 4 ∧
    (single.generateContacts toy.lib 1 (single.updateObjects toy.lib 1 toy.single1).1).1.2 =
      (single.generateContacts toy.lib 1
        (single.updateObjects toy.lib 1 toy.single1).1).2.flatMap Call.foundContacts :=
  ⟨toy_extends,
   ((contacts_accumulate toy.lib toy_extends 1).1 (ballistic.updateObjects toy.lib 1 toy.world2).1).1,
   by decide!,
   ((contacts_accumulate toy.lib toy_extends 1).2 (single.updateObjects toy.lib 1 toy.single1).1).1⟩

/-! ## Claims about integration -/

theorem integrateCalls_updateObjects (lib : Lib) (delta : Rat) (w : ballistic.World) :
    integrateCalls (ballistic.updateObjects lib delta w).2 =
      (w.cube :: w.bullets).map
        (fun e => (w.heap.GetBody (w.heap.entities e).Collider, lib.toReal delta)) := by
  rw [ballistic.updateObjects_calls, integrateCalls_entityCalls]

theorem integrateCalls_updateCallback (lib : Lib) (delta : Rat) (w : ballistic.World) :
    integrateCalls (ballistic.updateCallback lib delta w).2 =
      integrateCalls (ballistic.updateObjects lib delta w).2 := by
  rw [ballistic.updateCallback_calls, integrateCalls_append, integrateCalls_append,
    ballistic.integrateCalls_generateContacts]
  split <;> simp [integrateCalls, Call.integrated]

theorem mem_integrateCalls (t : List Call) (b : Ptr) (d : m.Real) :
    (b, d) ∈ integrateCalls t ↔ Call.Integrate b d ∈ t := by
  unfold integrateCalls
  rw [List.mem_filterMap]
  constructor
  · rintro ⟨c, hc, hi⟩
    cases c <;> simp [Call.integrated] at hi
    obtain ⟨rfl, rfl⟩ := hi
    exact hc
  · intro h
    exact ⟨_, h, rfl⟩

/-- C7: for a bullet list whose bodies are pairwise distinct and distinct from
the cube's body, `updateObjects` calls `Integrate` once on the cube's body and
once on each bullet's body, in this order and each with the tick's delta, and
on no other body: `1 + len(bullets)` calls, none on the backboard's body when
that is not one of them; the rest of the tick integrates nothing.  The older
example integrates the cube's body and, when there is one, the bullet's. -/
theorem integrate_once_per_body (lib : Lib) (delta : Rat) (w : ballistic.World)
    (v : single.World)
    (hnd : ((w.cube :: w.bullets).map
      (fun e => w.heap.GetBody (w.heap.entities e).Collider)).Nodup) :
    integrateCalls (ballistic.updateObjects lib delta w).2 =
      (w.cube :: w.bullets).map
        (fun e => (w.heap.GetBody (w.heap.entities e).Collider, lib.toReal delta)) ∧
    (∀ e ∈ w.cube :: w.bullets,
      ((integrateCalls (ballistic.updateObjects lib delta w).2).map Prod.fst).count
        (w.heap.GetBody (w.heap.entities e).Collider) = 1) ∧
    (∀ b d, Call.Integrate b d ∈ (ballistic.updateObjects lib delta w).2 →
      d = lib.toReal delta ∧
      ∃ e ∈ w.cube :: w.bullets, b = w.heap.GetBody (w.heap.entities e).Collider) ∧
    (integrateCalls (ballistic.updateObjects lib delta w).2).length = 1 + w.bullets.length ∧
    (w.heap.GetBody (w.heap.entities w.backboard).Collider ∉
        (w.cube :: w.bullets).map (fun e => w.heap.GetBody (w.heap.entities e).Collider) →
      ∀ d, Call.Integrate (w.heap.GetBody (w.heap.entities w.backboard).Collider) d ∉
        (ballistic.updateCallback lib delta w).2) ∧
    integrateCalls (ballistic.updateCallback lib delta w).2 =
      integrateCalls (ballistic.updateObjects lib delta w).2 ∧
    integrateCalls (single.updateObjects lib delta v).2 =
      (v.heap.GetBody (v.heap.entities v.cube).Collider, lib.toReal delta) ::
        (match v.bulletCollider with
         | none => []
         | some bc => [(v.heap.GetBody bc, lib.toReal delta)]) := by
  have hfst : (integrateCalls (ballistic.updateObjects lib delta w).2).map Prod.fst =
      (w.cube :: w.bullets).map (fun e => w.heap.GetBody (w.heap.entities e).Collider) := by
    rw [integrateCalls_updateObjects, List.map_map]
    rfl
  refine ⟨integrateCalls_updateObjects lib delta w, ?_, ?_, ?_, ?_,
    integrateCalls_updateCallback lib delta w, ?_⟩
  · intro e he
    rw [hfst]
    exact List.count_eq_one_of_mem hnd (List.mem_map_of_mem _ he)
  · intro b d hb
    rw [ballistic.updateObjects_calls] at hb
    exact integrate_mem_entityCalls _ _ _ _ _ hb
  · rw [integrateCalls_updateObjects]
    simp [Nat.add_comm]
  · intro hbb d hd
    rw [← mem_integrateCalls, integrateCalls_updateCallback] at hd
    have : w.heap.GetBody (w.heap.entities w.backboard).Collider ∈
        (integrateCalls (ballistic.updateObjects lib delta w).2).map Prod.fst :=
      List.mem_map_of_mem Prod.fst hd
    rw [hfst] at this
    exact hbb this
  · rw [updateObjects_calls_one]
    cases v.bulletCollider <;> cases v.bullet <;>
      simp [integrateCalls, entityCalls, Call.integrated]

/-- Witness for C7: after two shots the bodies of the cube and of the two
bullets are pairwise distinct, and a tick integrates exactly these three. -/
theorem integrate_once_per_body_witness :
    ((toy.world2.cube :: toy.world2.bullets).map
      (fun e => toy.world2.heap.GetBody (toy.world2.heap.entities e).Collider)).Nodup ∧
    integrateCalls (ballistic.updateObjects toy.lib 1 toy.world2).2 = [(3, 1), (11, 1), (15, 1)] :=
  ⟨by decide!,
   (integrate_once_per_body toy.lib 1 toy.world2 toy.single1 (by decide!)).1.trans (by decide!)⟩

/-! ## Claims about `fire` -/

theorem fire_bullets (lib : Lib) (w : ballistic.World) :
    (ballistic.fire lib w).bullets = w.bullets ++ [w.heap.next + 3] := rfl

theorem fire_next (lib : Lib) (w : ballistic.World) :
    (ballistic.fire lib w).heap.next = w.heap.next + 4 := rfl

theorem fire_iterate_bullets (lib : Lib) (N : Nat) (w : ballistic.World) :
    w.bullets <+: ((ballistic.fire lib)^[N] w).bullets ∧
    ((ballistic.fire lib)^[N] w).bullets.length = w.bullets.length + N := by
  induction N generalizing w with
  | zero => exact ⟨List.prefix_refl _, rfl⟩
  | succ n ih =>
    rw [Function.iterate_succ_apply]
    obtain ⟨hp, hl⟩ := ih (ballistic.fire lib w)
    rw [fire_bullets] at hp hl
    refine ⟨(List.prefix_append _ _).trans hp, ?_⟩
    rw [hl, List.length_append, List.length_singleton]
    omega

theorem fire_projectiles_one (lib : Lib) (v : single.World) :
    (single.fire lib v).projectiles = [v.heap.next + 2] := rfl

/-- C8, counterexample: in the older example the first shot fills the bullet
slot with collider `7`; the second shot overwrites it with collider `10`.  Two
calls of `fire` with no tick in between leave one projectile, not two, and the
projectile of the first shot is gone. -/
theorem fire_only_adds_counterexample :
    toy.single0.projectiles = [] ∧
    (single.fire toy.lib toy.single0).projectiles = [7] ∧
    (single.fire toy.lib (single.fire toy.lib toy.single0)).projectiles = [10] ∧
    ((single.fire toy.lib)^[2] toy.single0).projectiles.length ≠
      toy.single0.projectiles.length + 2 :=
  ⟨by decide!, by decide!, by decide!, by decide!⟩

/-- C8, amended: in the list example one call of `fire` turns the bullet list
`L` into `L` followed by exactly one entity, the one `fire` has just allocated
(its renderable and its collider are the sphere and the collider created in the
call, and it is no element of `L` when all of `L` was allocated earlier); the
cube and the backboard are kept; so `N` calls with no tick in between keep `L`
as a prefix and leave `len(L) + N` bullets.  In the older example `fire`
overwrites the one bullet slot with the renderable and the collider it has just
created, whatever the slot held: after any positive number of calls there is
exactly one projectile. -/
theorem fire_appends_one (lib : Lib) (w : ballistic.World) (v : single.World) :
    (∃ e, (ballistic.fire lib w).bullets = w.bullets ++ [e] ∧
      w.heap.next ≤ e ∧
      (ballistic.fire lib w).heap.entities e = ⟨w.heap.next, w.heap.next + 2⟩ ∧
      ((∀ b ∈ w.bullets, b < w.heap.next) → e ∉ w.bullets)) ∧
    (ballistic.fire lib w).cube = w.cube ∧
    (ballistic.fire lib w).backboard = w.backboard ∧
    (∀ N : Nat, w.bullets <+: ((ballistic.fire lib)^[N] w).bullets ∧
      ((ballistic.fire lib)^[N] w).bullets.length = w.bullets.length + N) ∧
    (single.fire lib v).bullet = some v.heap.next ∧
    (single.fire lib v).bulletCollider = some (v.heap.next + 2) ∧
    (single.fire lib v).projectiles = [v.heap.next + 2] ∧
    (single.fire lib v).cube = v.cube ∧
    (∀ N : Nat, ((single.fire lib)^[N + 1] v).projectiles.length = 1) := by
  refine ⟨⟨w.heap.next + 3, rfl, Nat.le_add_right _ _, ?_, ?_⟩, rfl, rfl,
    fun N => fire_iterate_bullets lib N w, rfl, rfl, rfl, rfl, fun N => ?_⟩
  · simp [ballistic.fire, ex.NewEntity, Heap.alloc, Heap.setEntity, Heap.newNode,
      cubez.NewCollisionSphere, Heap.newCollider, Heap.setNode, Heap.setBody,
      Heap.setCollider, cubez.CalculateDerivedData]
  · intro hlt hmem
    exact Nat.lt_irrefl _ (Nat.lt_of_le_of_lt (Nat.le_add_right _ 3) (hlt _ hmem))
  · rw [Function.iterate_succ_apply', fire_projectiles_one]
    rfl

/-- Witness for C8, amended: after `main` and one shot the bullet list is
`[13]`, every entry lies below the next free address, and a second shot appends
entity `17`, which is new. -/
theorem fire_appends_one_witness :
    (∀ b ∈ toy.world1.bullets, b < toy.world1.heap.next) ∧
    ∃ e, (ballistic.fire toy.lib toy.world1).bullets = toy.world1.bullets ++ [e] ∧
      e ∉ toy.world1.bullets :=
  ⟨by decide!,
   (fire_appends_one toy.lib toy.world1 toy.single1).1.elim
     (fun e he => ⟨e, he.1, he.2.2.2 (by decide!)⟩)⟩

/-! ## Lemmas: reachable worlds are well formed -/

namespace ballistic

theorem wellFormed_of_samePointers {w w' : World} (sp : SamePointers w.heap w'.heap)
    (hc : w'.cube = w.cube) (hb : w'.backboard = w.backboard) (hl : w'.bullets = w.bullets)
    (hw : w.WellFormed) : w'.WellFormed := by
  have hbody : w'.bodyOf = w.bodyOf := by
    funext e
    simp only [World.bodyOf, sp.1, sp.2.1]
  simpa only [World.WellFormed, World.all, hbody, sp.1, sp.2.2, hc, hb, hl] using hw

/-- A tick keeps the pointer structure and the globals. -/
theorem updateCallback_world (lib : Lib) (delta : Rat) (w : World) :
    SamePointers w.heap (updateCallback lib delta w).1.heap ∧
    (updateCallback lib delta w).1.cube = w.cube ∧
    (updateCallback lib delta w).1.backboard = w.backboard ∧
    (updateCallback lib delta w).1.bullets = w.bullets := by
  obtain ⟨sp, hc, hb, hl⟩ := updateObjects_world lib delta w
  unfold updateCallback
  by_cases hf : (generateContacts lib delta (updateObjects lib delta w).1).1.1 = true
  · simp only [hf, if_true]
    exact ⟨sp.trans (samePointers_ResolveContacts lib _ _ _ _), hc, hb, hl⟩
  · simp only [hf]
    exact ⟨sp, hc, hb, hl⟩

theorem main_pointers (lib : Lib) :
    (main lib).cube = 5 ∧ (main lib).backboard = 9 ∧ (main lib).bullets = [] ∧
    (main lib).heap.next = 10 ∧
    (main lib).heap.entities 5 = ⟨2, 4⟩ ∧ (main lib).heap.entities 9 = ⟨6, 8⟩ ∧
    (main lib).heap.GetBody 4 = 3 ∧ (main lib).heap.GetBody 8 = 7 :=
  ⟨rfl, rfl, rfl, rfl, rfl, rfl, rfl, rfl⟩

theorem wellFormed_main (lib : Lib) : (main lib).WellFormed := by
  obtain ⟨h1, h2, h3, h4, h5, h6, h7, h8⟩ := main_pointers lib
  simp only [World.WellFormed, World.all, World.bodyOf, h1, h2, h3, h4, List.map_cons,
    List.map_nil, h5, h6, h7, h8]
  refine ⟨by decide, by decide, by decide, by decide, ?_⟩
  intro e he
  simp only [List.mem_cons, List.mem_singleton, List.not_mem_nil, or_false] at he
  rcases he with rfl | rfl
  · simp only [h5, h7]
    decide
  · simp only [h6, h8]
    decide

theorem fire_entities (lib : Lib) (w : World) (e : Ptr) :
    (fire lib w).heap.entities e =
      if e = w.heap.next + 3 then ⟨w.heap.next, w.heap.next + 2⟩ else w.heap.entities e := rfl

theorem fire_getBody (lib : Lib) (w : World) (c : Ptr) :
    (fire lib w).heap.GetBody c =
      if c = w.heap.next + 2 then w.heap.next + 1 else w.heap.GetBody c := by
  simp only [fire, Heap.GetBody, ex.NewEntity, Heap.alloc, Heap.setEntity, Heap.newNode,
    cubez.NewCollisionSphere, Heap.newCollider, Heap.setNode, Heap.setBody,
    Heap.setCollider, cubez.CalculateDerivedData]
  by_cases hc : c = w.heap.next + 2 <;> simp [hc]

theorem fresh_ne {a n : Nat} (k : Nat) (h : a < n) : a ≠ n + k := by
  omega

theorem lt_add_of_lt {a n : Nat} (k : Nat) (h : a < n) : a < n + k := by
  omega

theorem wellFormed_fire (lib : Lib) (w : World) (hw : w.WellFormed) :
    (fire lib w).WellFormed := by
  obtain ⟨h1, h2, h3, h4, h5⟩ := hw
  have hall : (fire lib w).all = w.all ++ [w.heap.next + 3] := rfl
  have hent : ∀ e ∈ w.all, (fire lib w).heap.entities e = w.heap.entities e := by
    intro e he
    rw [fire_entities, if_neg (fresh_ne 3 (h5 e he).1)]
  have hbody : ∀ e ∈ w.all, (fire lib w).bodyOf e = w.bodyOf e := by
    intro e he
    simp only [World.bodyOf, hent e he, fire_getBody]
    rw [if_neg (fresh_ne 2 (h5 e he).2.2.1)]
  have hnew : (fire lib w).heap.entities (w.heap.next + 3) = ⟨w.heap.next, w.heap.next + 2⟩ := by
    rw [fire_entities, if_pos rfl]
  have hnewb : (fire lib w).bodyOf (w.heap.next + 3) = w.heap.next + 1 := by
    simp only [World.bodyOf, hnew, fire_getBody, if_pos]
  have hnext : (fire lib w).heap.next = w.heap.next + 4 := rfl
  refine ⟨?_, ?_, ?_, ?_, ?_⟩
  · rw [hall]
    refine List.Nodup.append h1 (List.nodup_singleton _) ?_
    intro a ha hb
    rw [List.mem_singleton] at hb
    exact fresh_ne 3 (h5 a ha).1 hb
  · rw [hall, List.map_append, List.map_congr_left (fun e he => by rw [hent e he])]
    refine List.Nodup.append h2 (List.nodup_singleton _) ?_
    intro a ha hb
    simp only [List.map_cons, List.map_nil, List.mem_singleton, hnew] at hb
    obtain ⟨e, he, rfl⟩ := List.mem_map.mp ha
    exact fresh_ne 0 (h5 e he).2.1 hb
  · rw [hall, List.map_append, List.map_congr_left (fun e he => by rw [hent e he])]
    refine List.Nodup.append h3 (List.nodup_singleton _) ?_
    intro a ha hb
    simp only [List.map_cons, List.map_nil, List.mem_singleton, hnew] at hb
    obtain ⟨e, he, rfl⟩ := List.mem_map.mp ha
    exact fresh_ne 2 (h5 e he).2.2.1 hb
  · rw [hall, List.map_append, List.map_congr_left (fun e he => hbody e he)]
    refine List.Nodup.append h4 (List.nodup_singleton _) ?_
    intro a ha hb
    simp only [List.map_cons, List.map_nil, List.mem_singleton, hnewb] at hb
    obtain ⟨e, he, rfl⟩ := List.mem_map.mp ha
    exact fresh_ne 1 (h5 e he).2.2.2 hb
  · intro e he
    rw [hall, List.mem_append, List.mem_singleton] at he
    rw [hnext]
    rcases he with he | rfl
    · rw [hent e he, hbody e he]
      obtain ⟨a, b, c, d⟩ := h5 e he
      exact ⟨lt_add_of_lt 4 a, lt_add_of_lt 4 b, lt_add_of_lt 4 c, lt_add_of_lt 4 d⟩
    · rw [hnew, hnewb]
      exact ⟨Nat.add_lt_add_left (by decide) _, Nat.lt_add_of_pos_right (by decide),
        Nat.add_lt_add_left (by decide) _, Nat.add_lt_add_left (by decide) _⟩

/-- Every world the running example can be in is well formed. -/
theorem wellFormed_of_reachable (lib : Lib) (w : World) (hr : Reachable lib w) :
    w.WellFormed := by
  induction hr with
  | main => exact wellFormed_main lib
  | fire _ ih => exact wellFormed_fire lib _ ih
  | tick delta _ ih =>
    obtain ⟨sp, hc, hb, hl⟩ := updateCallback_world lib delta _
    exact wellFormed_of_samePointers sp hc hb hl ih

end ballistic

/-! ## Lemmas: what `updateObjects` writes -/

namespace ballistic

theorem updateBullet_bodies (lib : Lib) (delta : Rat) (s : Sim) (e q : Ptr) :
    (updateBullet lib delta s e).1.bodies q =
      if q = s.1.GetBody (s.1.entities e).Collider then
        lib.Integrate (lib.toReal delta) (s.1.bodies (s.1.GetBody (s.1.entities e).Collider))
      else s.1.bodies q := rfl

theorem updateBullet_nodes (lib : Lib) (delta : Rat) (s : Sim) (e p : Ptr) :
    (updateBullet lib delta s e).1.nodes p =
      if p = (s.1.entities e).Node then
        { s.1.nodes (s.1.entities e).Node with
          Location := ex.toVec3 lib (lib.Integrate (lib.toReal delta)
            (s.1.bodies (s.1.GetBody (s.1.entities e).Collider))).Position
          LocalRotation := ex.toQuat lib (lib.Integrate (lib.toReal delta)
            (s.1.bodies (s.1.GetBody (s.1.entities e).Collider))).Orientation }
      else s.1.nodes p := by
  simp only [updateBullet, cubez.Integrate, cubez.CalculateDerivedData, ex.SetGlVector3,
    ex.SetGlQuat, Heap.setBody, Heap.setCollider, Heap.setNode]
  by_cases hp : p = (s.1.entities e).Node <;> simp [hp]

/-- Right after its round of the loop, the renderable of an entity shows the
pose of its body. -/
theorem poseSynced_updateBullet (lib : Lib) (delta : Rat) (s : Sim) (e : Ptr) :
    PoseSynced lib (updateBullet lib delta s e).1 e := by
  obtain ⟨sp, _⟩ := updateBullet_spec lib delta s e
  unfold PoseSynced
  rw [sp.1, sp.2.1, updateBullet_nodes, updateBullet_bodies]
  simp

/-- The loop leaves alone every body that belongs to none of its entities. -/
theorem updateBullets_bodies_frame (lib : Lib) (delta : Rat) (bs : List Ptr) (s : Sim) (q : Ptr)
    (hq : ∀ x ∈ bs, s.1.GetBody (s.1.entities x).Collider ≠ q) :
    (bs.foldl (updateBullet lib delta) s).1.bodies q = s.1.bodies q := by
  induction bs generalizing s with
  | nil => rfl
  | cons x xs ih =>
    obtain ⟨sp, _⟩ := updateBullet_spec lib delta s x
    rw [List.foldl_cons, ih (updateBullet lib delta s x)
      (fun y hy => by rw [sp.1, sp.2.1]; exact hq y (List.mem_cons_of_mem _ hy)),
      updateBullet_bodies, if_neg (Ne.symm (hq x (List.mem_cons_self _ _)))]

/-- The loop leaves alone every renderable that belongs to none of its
entities. -/
theorem updateBullets_nodes_frame (lib : Lib) (delta : Rat) (bs : List Ptr) (s : Sim) (p : Ptr)
    (hp : ∀ x ∈ bs, (s.1.entities x).Node ≠ p) :
    (bs.foldl (updateBullet lib delta) s).1.nodes p = s.1.nodes p := by
  induction bs generalizing s with
  | nil => rfl
  | cons x xs ih =>
    obtain ⟨sp, _⟩ := updateBullet_spec lib delta s x
    rw [List.foldl_cons, ih (updateBullet lib delta s x)
      (fun y hy => by rw [sp.1]; exact hp y (List.mem_cons_of_mem _ hy)),
      updateBullet_nodes, if_neg (Ne.symm (hp x (List.mem_cons_self _ _)))]

/-- After the loop over entities with renderables and bodies of their own, the
renderable of each shows the pose of its body. -/
theorem poseSynced_updateBullets (lib : Lib) (delta : Rat) (bs : List Ptr) (s : Sim)
    (hn : (bs.map (fun e => (s.1.entities e).Node)).Nodup)
    (hb : (bs.map (fun e => s.1.GetBody (s.1.entities e).Collider)).Nodup) :
    ∀ e ∈ bs, PoseSynced lib (bs.foldl (updateBullet lib delta) s).1 e := by
  induction bs generalizing s with
  | nil => intro e he; cases he
  | cons x xs ih =>
    obtain ⟨sp, _⟩ := updateBullet_spec lib delta s x
    obtain ⟨sp', _⟩ := updateBullets_spec lib delta xs (updateBullet lib delta s x)
    rw [List.map_cons, List.nodup_cons] at hn hb
    intro e he
    rw [List.foldl_cons]
    rcases List.mem_cons.mp he with rfl | he
    · have h0 := poseSynced_updateBullet lib delta s e
      have hnode := updateBullets_nodes_frame lib delta xs (updateBullet lib delta s e)
        ((updateBullet lib delta s e).1.entities e).Node (fun y hy heq => by
          rw [sp.1] at heq
          exact hn.1 (List.mem_map.mpr ⟨y, hy, heq⟩))
      have hbody := updateBullets_bodies_frame lib delta xs (updateBullet lib delta s e)
        ((updateBullet lib delta s e).1.GetBody ((updateBullet lib delta s e).1.entities e).Collider)
        (fun y hy heq => by
          rw [sp.1, sp.2.1, sp.2.1] at heq
          exact hb.1 (List.mem_map.mpr ⟨y, hy, heq⟩))
      unfold PoseSynced at h0 ⊢
      rw [sp'.1, sp'.2.1, hnode, hbody]
      exact h0
    · refine ih (updateBullet lib delta s x) ?_ ?_ e he
      · simpa only [sp.1] using hn.2
      · simpa only [sp.1, sp.2.1] using hb.2

/-- The function `updateObjects` is the loop body run on the cube and then on
each bullet. -/
theorem updateObjects_eq_foldl (lib : Lib) (delta : Rat) (w : World) :
    updateObjects lib delta w =
      ({ w with heap := ((w.cube :: w.bullets).foldl (updateBullet lib delta) (w.heap, [])).1 },
       ((w.cube :: w.bullets).foldl (updateBullet lib delta) (w.heap, [])).2) := rfl

/-- After `updateObjects` on a well-formed world the renderable of the cube and
of every bullet shows the pose of its body. -/
theorem poseSynced_updateObjects (lib : Lib) (delta : Rat) (w : World) (hw : w.WellFormed) :
    ∀ e ∈ w.cube :: w.bullets, PoseSynced lib (updateObjects lib delta w).1.heap e := by
  have hsub : List.Sublist (w.cube :: w.bullets) w.all :=
    List.Sublist.cons₂ _ (List.sublist_cons_self _ _)
  rw [updateObjects_eq_foldl]
  exact poseSynced_updateBullets lib delta _ (w.heap, [])
    (hw.2.1.sublist (hsub.map _)) (hw.2.2.2.1.sublist (hsub.map _))

/-- The resolver leaves the renderables alone: after a tick they are what
`updateObjects` left. -/
theorem updateCallback_nodes (lib : Lib) (delta : Rat) (w : World) :
    (updateCallback lib delta w).1.heap.nodes = (updateObjects lib delta w).1.heap.nodes := by
  unfold updateCallback
  by_cases hf : (generateContacts lib delta (updateObjects lib delta w).1).1.1 = true
  · simp only [hf, if_true]
    rfl
  · simp only [hf]
    rfl

end ballistic

/-! ## Claims about the pose copy -/

/-- C3, counterexample: with the concrete library, after `main` and one shot, a
tick of one second integrates the bullet to height `-1`, copies that pose into
the renderable (calls 6 and 7 of 14), detects the ground contact, and only then
calls the resolver (call 13), which lifts the body to height `1/5`: at the end
of the tick the renderable does not show the pose of the body. -/
theorem pose_copy_after_resolution_counterexample :
    ballistic.Reachable toy.lib toy.world1 ∧
    ¬ (∀ e ∈ toy.world1.cube :: toy.world1.bullets,
        PoseSynced toy.lib (ballistic.updateCallback toy.lib 1 toy.world1).1.heap e) ∧
    ((ballistic.updateCallback toy.lib 1 toy.world1).1.heap.nodes 10).Location = ⟨0, -1, -20⟩ ∧
    ((ballistic.updateCallback toy.lib 1 toy.world1).1.heap.bodies 11).Position = ⟨0, 1/5, -20⟩ ∧
    (ballistic.updateCallback toy.lib 1 toy.world1).2.length = 14 ∧
    (ballistic.updateCallback toy.lib 1 toy.world1).2[6]? = some (Call.SetGlVector3 10 11) ∧
    (ballistic.updateCallback toy.lib 1 toy.world1).2[7]? = some (Call.SetGlQuat 10 11) ∧
    ((ballistic.updateCallback toy.lib 1 toy.world1).2[13]?).map Call.isResolve = some true :=
  ⟨ballistic.Reachable.fire ballistic.Reachable.main, by decide!, by decide!, by decide!,
    by decide!, by decide!, by decide!, by decide!⟩

/-- C3, amended: in every tick the calls run in this order: for the cube and
then for each bullet in list order `Integrate`, `CalculateDerivedData`, the two
pose copies; then the collision tests; then, when the flag is set, the
resolver.  The pose copy thus precedes detection and resolution: at the end of
the tick the renderables are as `updateObjects` left them, and in every world
the running example can be in the renderable of the cube and of every bullet
shows the pose its body had at the end of `updateObjects`, before any
adjustment by the resolver. -/
theorem pose_copy_before_resolution (lib : Lib) (delta : Rat) (w : ballistic.World) :
    (ballistic.updateCallback lib delta w).2 =
      (w.cube :: w.bullets).flatMap (entityCalls w.heap (lib.toReal delta)) ++
      (ballistic.generateContacts lib delta (ballistic.updateObjects lib delta w).1).2 ++
      (if (ballistic.generateContacts lib delta (ballistic.updateObjects lib delta w).1).1.1 = true
       then [Call.ResolveContacts
          ((ballistic.generateContacts lib delta
            (ballistic.updateObjects lib delta w).1).1.2.length * 8)
          (ballistic.generateContacts lib delta (ballistic.updateObjects lib delta w).1).1.2
          (lib.toReal delta)]
       else []) ∧
    (∀ c ∈ (ballistic.generateContacts lib delta (ballistic.updateObjects lib delta w).1).2,
      c.isTest = true) ∧
    (ballistic.updateCallback lib delta w).1.heap.nodes =
      (ballistic.updateObjects lib delta w).1.heap.nodes ∧
    (ballistic.Reachable lib w →
     ∀ e ∈ w.cube :: w.bullets,
      ((ballistic.updateCallback lib delta w).1.heap.nodes (w.heap.entities e).Node).Location =
        ex.toVec3 lib ((ballistic.updateObjects lib delta w).1.heap.bodies (w.bodyOf e)).Position ∧
      ((ballistic.updateCallback lib delta w).1.heap.nodes (w.heap.entities e).Node).LocalRotation =
        ex.toQuat lib
          ((ballistic.updateObjects lib delta w).1.heap.bodies (w.bodyOf e)).Orientation) := by
  refine ⟨?_, ?_, ballistic.updateCallback_nodes lib delta w, ?_⟩
  · rw [ballistic.updateCallback_calls, ballistic.updateObjects_calls]
  · intro c hc
    obtain ⟨_, _, _, _, _, _, _, rfl⟩ := ballistic.generateContacts_calls lib delta _ c hc
    rfl
  · intro hw e he
    have hs := ballistic.poseSynced_updateObjects lib delta w
      (ballistic.wellFormed_of_reachable lib w hw) e he
    obtain ⟨sp, _⟩ := ballistic.updateObjects_world lib delta w
    unfold PoseSynced at hs
    rw [sp.1, sp.2.1] at hs
    rw [ballistic.updateCallback_nodes]
    exact hs

/-- Witness for C3, amended: the world after `main` and one shot is reachable;
after a tick of one second the renderable of the bullet shows the integrated
pose. -/
theorem pose_copy_before_resolution_witness :
    ballistic.Reachable toy.lib toy.world1 ∧
    ((ballistic.updateCallback toy.lib 1 toy.world1).1.heap.nodes
        (toy.world1.heap.entities 13).Node).Location =
      ex.toVec3 toy.lib
        ((ballistic.updateObjects toy.lib 1 toy.world1).1.heap.bodies
          (toy.world1.bodyOf 13)).Position :=
  ⟨ballistic.Reachable.fire ballistic.Reachable.main,
   ((pose_copy_before_resolution toy.lib 1 toy.world1).2.2.2
      (ballistic.Reachable.fire ballistic.Reachable.main) 13 (by decide!)).1⟩

/-- C9, counterexample: with the concrete library, right after `main` and one
shot the body of the new entity is at `(0, 1.5, 20)` while its renderable is
still where `CreateSphere` put it, at the origin. -/
theorem spawn_pose_counterexample :
    ballistic.Reachable toy.lib toy.world0 ∧
    (ballistic.fire toy.lib toy.world0).bullets = [13] ∧
    ¬ PoseSynced toy.lib (ballistic.fire toy.lib toy.world0).heap 13 ∧
    ((ballistic.fire toy.lib toy.world0).heap.nodes
      ((ballistic.fire toy.lib toy.world0).heap.entities 13).Node).Location = ⟨0, 0, 0⟩ ∧
    ((ballistic.fire toy.lib toy.world0).heap.bodies
      ((ballistic.fire toy.lib toy.world0).bodyOf 13)).Position = ⟨0, 1.5, 20⟩ :=
  ⟨ballistic.Reachable.main, by decide!, by decide!, by decide!, by decide!⟩

theorem fire_node (lib : Lib) (w : ballistic.World) :
    (ballistic.fire lib w).heap.nodes w.heap.next =
      { lib.CreateSphere (lib.float32 0.2) 16 16 with
        Shader := w.colorShader, Color := ⟨0.2, 0.2, 1.0, 1.0⟩ } := by
  simp [ballistic.fire, ex.NewEntity, Heap.alloc, Heap.setEntity, Heap.newNode,
    cubez.NewCollisionSphere, Heap.newCollider, Heap.setNode, Heap.setBody,
    Heap.setCollider, cubez.CalculateDerivedData]

theorem fire_body (lib : Lib) (w : ballistic.World) :
    (ballistic.fire lib w).heap.bodies (w.heap.next + 1) =
      lib.BodyCalculateDerivedData
        { lib.SetMass 1.5 (lib.SetInertiaTensor
            (lib.SetInertiaTensorCoeffs cubez.zeroMatrix3 (0.4 * 1.5 * 0.2 * 0.2)
              (0.4 * 1.5 * 0.2 * 0.2) (0.4 * 1.5 * 0.2 * 0.2) 0.0 0.0 0.0)
            { lib.NewRigidBody with Position := ⟨0.0, 1.5, 20.0⟩ }) with
          Velocity := ⟨0.0, 0.0, -40.0⟩, Acceleration := ⟨0.0, -2.5, 0.0⟩ } := by
  simp [ballistic.fire, ex.NewEntity, Heap.alloc, Heap.setEntity, Heap.newNode,
    cubez.NewCollisionSphere, Heap.newCollider, Heap.setNode, Heap.setBody,
    Heap.setCollider, cubez.CalculateDerivedData, Heap.GetBody]

/-- C9, amended: `fire` copies no pose.  Right after the spawn, before any tick,
the renderable of the new entity has the `Location` and the `LocalRotation` the
mesh builder `CreateSphere` returned, whatever the pose of the body; the body
is the library's new body with `Position` set to `(0, 1.5, 20)`, passed through
the library's setters. -/
theorem spawn_pose_from_mesh_builder (lib : Lib) (w : ballistic.World) :
    (ballistic.fire lib w).bullets = w.bullets ++ [w.heap.next + 3] ∧
    (ballistic.fire lib w).heap.entities (w.heap.next + 3) = ⟨w.heap.next, w.heap.next + 2⟩ ∧
    (ballistic.fire lib w).bodyOf (w.heap.next + 3) = w.heap.next + 1 ∧
    ((ballistic.fire lib w).heap.nodes w.heap.next).Location =
      (lib.CreateSphere (lib.float32 0.2) 16 16).Location ∧
    ((ballistic.fire lib w).heap.nodes w.heap.next).LocalRotation =
      (lib.CreateSphere (lib.float32 0.2) 16 16).LocalRotation ∧
    (ballistic.fire lib w).heap.bodies (w.heap.next + 1) =
      lib.BodyCalculateDerivedData
        { lib.SetMass 1.5 (lib.SetInertiaTensor
            (lib.SetInertiaTensorCoeffs cubez.zeroMatrix3 (0.4 * 1.5 * 0.2 * 0.2)
              (0.4 * 1.5 * 0.2 * 0.2) (0.4 * 1.5 * 0.2 * 0.2) 0.0 0.0 0.0)
            { lib.NewRigidBody with Position := ⟨0.0, 1.5, 20.0⟩ }) with
          Velocity := ⟨0.0, 0.0, -40.0⟩, Acceleration := ⟨0.0, -2.5, 0.0⟩ } := by
  refine ⟨rfl, ?_, ?_, ?_, ?_, fire_body lib w⟩
  · rw [ballistic.fire_entities, if_pos rfl]
  · simp only [ballistic.World.bodyOf, ballistic.fire_entities, ballistic.fire_getBody, if_pos]
  · rw [fire_node]
  · rw [fire_node]

/-! ## Claims about the order and the pairs of the collision tests -/

namespace ballistic

theorem ownColliders_of_wellFormed (w : World) (hw : w.WellFormed) : w.OwnColliders :=
  ⟨hw.1, hw.2.2.1⟩

theorem ownColliders_of_reachable (lib : Lib) (w : World) (hr : Reachable lib w) :
    w.OwnColliders :=
  ownColliders_of_wellFormed w (wellFormed_of_reachable lib w hr)

/-- When the entities have colliders of their own, the collider of the cube and
of every bullet is dynamic, and the collider of the backboard is static. -/
theorem isStatic_of_ownColliders (w : World) (hw : w.OwnColliders) :
    isStatic w (cubez.Collider.primitive (w.heap.entities w.backboard).Collider) = true ∧
    ∀ e ∈ w.cube :: w.bullets,
      isStatic w (cubez.Collider.primitive (w.heap.entities e).Collider) = false := by
  refine ⟨by simp [isStatic], ?_⟩
  intro e he
  have hinj := List.inj_on_of_nodup_map hw.2
  have hne : e ≠ w.backboard := by
    rcases List.mem_cons.mp he with rfl | he
    · intro h
      have := hw.1
      rw [World.all, ← h] at this
      simp at this
    · intro h
      have := hw.1
      rw [World.all, ← h] at this
      simp [he] at this
  have hmem : e ∈ w.all := by
    rcases List.mem_cons.mp he with rfl | he
    · exact List.mem_cons_self _ _
    · exact List.mem_cons_of_mem _ (List.mem_cons_of_mem _ he)
  have hb : w.backboard ∈ w.all := List.mem_cons_of_mem _ (List.mem_cons_self _ _)
  simp only [isStatic, beq_eq_false_iff_ne, ne_eq]
  intro heq
  exact hne (hinj hmem hb heq)

end ballistic

/-- C6, counterexample: after `main` and one shot the five tests are issued in
the order cube-ground, cube-backboard, bullet-ground, cube-bullet,
backboard-bullet: the test of the two dynamic colliders cube and bullet (index
3) comes before the test of the bullet against the static backboard (index
4). -/
theorem static_tests_first_counterexample :
    ballistic.Reachable toy.lib toy.world1 ∧
    testedPairs (ballistic.generateContacts toy.lib 1 toy.world1).2 =
      [(cubez.Collider.primitive 4, cubez.Collider.plane ballistic.tickPlane),
       (cubez.Collider.primitive 4, cubez.Collider.primitive 8),
       (cubez.Collider.primitive 12, cubez.Collider.plane ballistic.tickPlane),
       (cubez.Collider.primitive 4, cubez.Collider.primitive 12),
       (cubez.Collider.primitive 8, cubez.Collider.primitive 12)] ∧
    ∃ (i j : Nat) (p q : cubez.Collider × cubez.Collider), i < j ∧
      (testedPairs (ballistic.generateContacts toy.lib 1 toy.world1).2)[i]? = some p ∧
      (testedPairs (ballistic.generateContacts toy.lib 1 toy.world1).2)[j]? = some q ∧
      ballistic.dynamicTest toy.world1 p = true ∧ ballistic.staticTest toy.world1 q = true :=
  ⟨ballistic.Reachable.fire ballistic.Reachable.main, by decide!,
   3, 4, (cubez.Collider.primitive 4, cubez.Collider.primitive 12),
   (cubez.Collider.primitive 8, cubez.Collider.primitive 12),
   by decide, by decide!, by decide!, by decide!, by decide!⟩

/-- C6, amended: one run of `generateContacts` issues only collision tests, in
this order: cube against ground, cube against backboard (both against a static
collider); then for each bullet in list order: bullet against ground (static),
cube against bullet (dynamic), backboard against bullet (static), and every
other bullet of the list against this bullet (dynamic); the classification
holds when the entities have colliders of their own.  So for every bullet the
test between the dynamic colliders cube and bullet is issued before the test of
the bullet against the static backboard. -/
theorem tests_in_source_order (lib : Lib) (delta : Rat) (w : ballistic.World) :
    testedPairs (ballistic.generateContacts lib delta w).2 =
      [(cubez.Collider.primitive (w.heap.entities w.cube).Collider,
          cubez.Collider.plane ballistic.tickPlane),
       (cubez.Collider.primitive (w.heap.entities w.cube).Collider,
          cubez.Collider.primitive (w.heap.entities w.backboard).Collider)] ++
      w.bullets.flatMap (fun bullet =>
        [(cubez.Collider.primitive (w.heap.entities bullet).Collider,
            cubez.Collider.plane ballistic.tickPlane),
         (cubez.Collider.primitive (w.heap.entities w.cube).Collider,
            cubez.Collider.primitive (w.heap.entities bullet).Collider),
         (cubez.Collider.primitive (w.heap.entities w.backboard).Collider,
            cubez.Collider.primitive (w.heap.entities bullet).Collider)] ++
        (w.bullets.filter (fun bullet2 => bullet2 ≠ bullet)).map (fun bullet2 =>
          (cubez.Collider.primitive (w.heap.entities bullet2).Collider,
           cubez.Collider.primitive (w.heap.entities bullet).Collider))) ∧
    (testedPairs (ballistic.generateContacts lib delta w).2).length =
      (ballistic.generateContacts lib delta w).2.length ∧
    (w.OwnColliders →
    ballistic.staticTest w (cubez.Collider.primitive (w.heap.entities w.cube).Collider,
      cubez.Collider.plane ballistic.tickPlane) = true ∧
    ballistic.staticTest w (cubez.Collider.primitive (w.heap.entities w.cube).Collider,
      cubez.Collider.primitive (w.heap.entities w.backboard).Collider) = true ∧
    ∀ bullet ∈ w.bullets,
      ballistic.staticTest w (cubez.Collider.primitive (w.heap.entities bullet).Collider,
        cubez.Collider.plane ballistic.tickPlane) = true ∧
      ballistic.dynamicTest w (cubez.Collider.primitive (w.heap.entities w.cube).Collider,
        cubez.Collider.primitive (w.heap.entities bullet).Collider) = true ∧
      ballistic.staticTest w (cubez.Collider.primitive (w.heap.entities w.backboard).Collider,
        cubez.Collider.primitive (w.heap.entities bullet).Collider) = true ∧
      ∀ bullet2 ∈ w.bullets, bullet2 ≠ bullet →
        ballistic.dynamicTest w (cubez.Collider.primitive (w.heap.entities bullet2).Collider,
          cubez.Collider.primitive (w.heap.entities bullet).Collider) = true) := by
  have hG : ∀ pl, ballistic.isStatic w (cubez.Collider.plane pl) = true := fun _ => rfl
  refine ⟨ballistic.testedPairs_generateContacts lib delta w, ?_, fun hw => ?_⟩
  rotate_left
  · obtain ⟨hB, hD⟩ := ballistic.isStatic_of_ownColliders w hw
    have hC := hD w.cube (List.mem_cons_self _ _)
    refine ⟨?_, ?_, ?_⟩
    · simp [ballistic.staticTest, hC, hG]
    · simp [ballistic.staticTest, hC, hB]
    · intro b hb
      have hb' := hD b (List.mem_cons_of_mem _ hb)
      refine ⟨by simp [ballistic.staticTest, hb', hG],
        by simp [ballistic.dynamicTest, hb', hC],
        by simp [ballistic.staticTest, hb', hB], ?_⟩
      intro b2 hb2 _
      have hb2' := hD b2 (List.mem_cons_of_mem _ hb2)
      simp [ballistic.dynamicTest, hb', hb2']
  · unfold testedPairs
    have hall : ∀ c ∈ (ballistic.generateContacts lib delta w).2, (Call.pair c).isSome = true := by
      intro c hc
      obtain ⟨_, _, _, _, _, _, _, rfl⟩ := ballistic.generateContacts_calls lib delta w c hc
      rfl
    generalize (ballistic.generateContacts lib delta w).2 = t at hall
    induction t with
    | nil => rfl
    | cons c t ih =>
      have h1 := hall c (List.mem_cons_self _ _)
      obtain ⟨p, hp⟩ := Option.isSome_iff_exists.mp h1
      rw [List.filterMap_cons_some hp, List.length_cons, List.length_cons,
        ih (fun c' hc' => hall c' (List.mem_cons_of_mem _ hc'))]

/-- Witness for C6, amended: in the world after `main` and two shots the
entities have colliders of their own; the test of the cube against the first
bullet is between dynamic colliders and is followed by the test of the
backboard against that bullet, against a static collider. -/
theorem tests_in_source_order_witness :
    toy.world2.OwnColliders ∧
    ballistic.dynamicTest toy.world2
      (cubez.Collider.primitive (toy.world2.heap.entities toy.world2.cube).Collider,
       cubez.Collider.primitive (toy.world2.heap.entities 13).Collider) = true ∧
    ballistic.staticTest toy.world2
      (cubez.Collider.primitive (toy.world2.heap.entities toy.world2.backboard).Collider,
       cubez.Collider.primitive (toy.world2.heap.entities 13).Collider) = true :=
  ⟨ballistic.ownColliders_of_reachable toy.lib toy.world2
     (ballistic.Reachable.fire (ballistic.Reachable.fire ballistic.Reachable.main)),
   (((tests_in_source_order toy.lib 1 toy.world2).2.2
      (ballistic.ownColliders_of_reachable toy.lib toy.world2
        (ballistic.Reachable.fire (ballistic.Reachable.fire ballistic.Reachable.main)))).2.2
      13 (by decide!)).2.1,
   (((tests_in_source_order toy.lib 1 toy.world2).2.2
      (ballistic.ownColliders_of_reachable toy.lib toy.world2
        (ballistic.Reachable.fire (ballistic.Reachable.fire ballistic.Reachable.main)))).2.2
      13 (by decide!)).2.2.1⟩

namespace ballistic

/-- Distinct entities have distinct colliders. -/
theorem colliderOf_inj (w : World) (hw : w.OwnColliders) {x y : Ptr} (hx : x ∈ w.all)
    (hy : y ∈ w.all) (h : w.colliderOf x = w.colliderOf y) : x = y := by
  simp only [World.colliderOf, cubez.Collider.primitive.injEq] at h
  exact List.inj_on_of_nodup_map hw.2 hx hy h

theorem ownColliders_distinct (w : World) (hw : w.OwnColliders) :
    w.cube ≠ w.backboard ∧ w.cube ∉ w.bullets ∧ w.backboard ∉ w.bullets ∧ w.bullets.Nodup := by
  have h := hw.1
  simp only [World.all, List.nodup_cons, List.mem_cons, not_or] at h
  exact ⟨h.1.1, h.1.2, h.2.1, h.2.2⟩

theorem mem_all_of_mem_bullets (w : World) {b : Ptr} (hb : b ∈ w.bullets) : b ∈ w.all :=
  List.mem_cons_of_mem _ (List.mem_cons_of_mem _ hb)

theorem cube_mem_all (w : World) : w.cube ∈ w.all :=
  List.mem_cons_self _ _

theorem backboard_mem_all (w : World) : w.backboard ∈ w.all :=
  List.mem_cons_of_mem _ (List.mem_cons_self _ _)

/-- The tests of one bullet: its ground test, then one test per other entity,
with the bullet as second argument. -/
theorem bulletPairs_eq (w : World) (gp : cubez.CollisionPlane) (b : Ptr) :
    bulletPairs w gp b =
      (w.colliderOf b, cubez.Collider.plane gp) ::
      (w.cube :: w.backboard :: w.bullets.filter (fun b2 => b2 ≠ b)).map
        (fun e => (w.colliderOf e, w.colliderOf b)) := rfl

theorem testedPairs_eq (lib : Lib) (delta : Rat) (w : World) :
    testedPairs (generateContacts lib delta w).2 =
      (w.colliderOf w.cube, cubez.Collider.plane tickPlane) ::
      (w.colliderOf w.cube, w.colliderOf w.backboard) ::
      w.bullets.flatMap (bulletPairs w tickPlane) :=
  testedPairs_generateContacts lib delta w

/-- A test of the block of bullet `b` is its ground test, or a test of another
entity against `b`. -/
theorem mem_bulletPairs (w : World) (hw : w.OwnColliders) (gp : cubez.CollisionPlane) {b : Ptr}
    (hb : b ∈ w.bullets) {x : cubez.Collider × cubez.Collider} (hx : x ∈ bulletPairs w gp b) :
    x = (w.colliderOf b, cubez.Collider.plane gp) ∨
    ∃ e ∈ w.all, e ≠ b ∧ (e ∈ w.bullets ∨ e = w.cube ∨ e = w.backboard) ∧
      x = (w.colliderOf e, w.colliderOf b) := by
  obtain ⟨_, hc, hbb, _⟩ := ownColliders_distinct w hw
  rw [bulletPairs_eq, List.mem_cons, List.mem_map] at hx
  rcases hx with hx | ⟨e, he, rfl⟩
  · exact Or.inl hx
  · right
    rw [List.mem_cons, List.mem_cons, List.mem_filter] at he
    rcases he with rfl | rfl | ⟨he, hne⟩
    · exact ⟨_, cube_mem_all w, fun h => hc (h ▸ hb), Or.inr (Or.inl rfl), rfl⟩
    · exact ⟨_, backboard_mem_all w, fun h => hbb (h ▸ hb), Or.inr (Or.inr rfl), rfl⟩
    · exact ⟨e, mem_all_of_mem_bullets w he, by simpa using hne, Or.inl he, rfl⟩

theorem nodup_bulletPairs (w : World) (hw : w.OwnColliders) (gp : cubez.CollisionPlane) {b : Ptr}
    (_hb : b ∈ w.bullets) : (bulletPairs w gp b).Nodup := by
  obtain ⟨hcb, hc, hbb, hnd⟩ := ownColliders_distinct w hw
  rw [bulletPairs_eq, List.nodup_cons]
  constructor
  · intro hm
    obtain ⟨e, _, he⟩ := List.mem_map.mp hm
    simp [World.colliderOf] at he
  · have hsub : List.Sublist (w.cube :: w.backboard :: w.bullets.filter (fun b2 => b2 ≠ b))
        w.all :=
      List.Sublist.cons₂ _ (List.Sublist.cons₂ _ (List.filter_sublist _))
    refine List.Nodup.map_on ?_ (hw.1.sublist hsub)
    intro x hx y hy hxy
    simp only [Prod.mk.injEq, and_true] at hxy
    exact colliderOf_inj w hw (hsub.subset hx) (hsub.subset hy) hxy

theorem nodup_testedPairs (lib : Lib) (delta : Rat) (w : World) (hw : w.OwnColliders) :
    (testedPairs (generateContacts lib delta w).2).Nodup := by
  obtain ⟨hcb, hc, hbb, hnd⟩ := ownColliders_distinct w hw
  rw [testedPairs_eq, List.nodup_cons, List.nodup_cons]
  refine ⟨?_, ?_, ?_⟩
  · intro hm
    rw [List.mem_cons, List.mem_flatMap] at hm
    rcases hm with hm | ⟨b, hb, hm⟩
    · simp [World.colliderOf] at hm
    · rcases mem_bulletPairs w hw _ hb hm with h | ⟨e, _, _, _, h⟩
      · simp only [Prod.mk.injEq, and_true] at h
        exact hc ((colliderOf_inj w hw (cube_mem_all w) (mem_all_of_mem_bullets w hb) h) ▸ hb)
      · simp [World.colliderOf] at h
  · intro hm
    rw [List.mem_flatMap] at hm
    obtain ⟨b, hb, hm⟩ := hm
    rcases mem_bulletPairs w hw _ hb hm with h | ⟨e, _, _, _, h⟩
    · simp [World.colliderOf] at h
    · simp only [Prod.mk.injEq] at h
      exact hbb ((colliderOf_inj w hw (backboard_mem_all w) (mem_all_of_mem_bullets w hb) h.2)
        ▸ hb)
  · rw [List.nodup_flatMap]
    refine ⟨fun b hb => nodup_bulletPairs w hw _ hb, ?_⟩
    refine (List.Pairwise.and_mem.mp hnd).imp ?_
    rintro b b' ⟨hb, hb', hne⟩
    show List.Disjoint (bulletPairs w tickPlane b) (bulletPairs w tickPlane b')
    intro x hx hx'
    rcases mem_bulletPairs w hw _ hb hx with h | ⟨e, _, _, _, h⟩ <;>
      rcases mem_bulletPairs w hw _ hb' hx' with h' | ⟨e', _, _, _, h'⟩
    · rw [h] at h'
      simp only [Prod.mk.injEq, and_true] at h'
      exact hne (colliderOf_inj w hw (mem_all_of_mem_bullets w hb)
        (mem_all_of_mem_bullets w hb') h')
    · rw [h] at h'
      simp [World.colliderOf] at h'
    · rw [h] at h'
      simp [World.colliderOf] at h'
    · rw [h] at h'
      simp only [Prod.mk.injEq] at h'
      exact hne (colliderOf_inj w hw (mem_all_of_mem_bullets w hb)
        (mem_all_of_mem_bullets w hb') h'.2)

end ballistic

/-- C5, counterexample: after `main` and two shots the bullet list holds two
distinct entities with colliders `12` and `16`; one run of `generateContacts`
tests the pair `(16, 12)` in the round of the first bullet (index 5) and the
pair `(12, 16)` in the round of the second (index 9): the unordered pair of
the two colliders occurs twice among the tests. -/
theorem unordered_pair_once_counterexample :
    ballistic.Reachable toy.lib toy.world2 ∧ toy.world2.bullets.Nodup ∧
    (testedPairs (ballistic.generateContacts toy.lib 1 toy.world2).2)[5]? =
      some (cubez.Collider.primitive 16, cubez.Collider.primitive 12) ∧
    (testedPairs (ballistic.generateContacts toy.lib 1 toy.world2).2)[9]? =
      some (cubez.Collider.primitive 12, cubez.Collider.primitive 16) ∧
    (testedPairs (ballistic.generateContacts toy.lib 1 toy.world2).2).countP
      (fun p => p == (cubez.Collider.primitive 16, cubez.Collider.primitive 12) ||
        p == (cubez.Collider.primitive 12, cubez.Collider.primitive 16)) = 2 :=
  ⟨ballistic.Reachable.fire (ballistic.Reachable.fire ballistic.Reachable.main),
   by decide!, by decide!, by decide!, by decide!⟩

/-- C5, amended: when the cube, the backboard and the bullets are pairwise
distinct entities with colliders of their own, one run of `generateContacts` never tests a collider
against itself and never issues the same ordered pair of colliders twice; it
tests every pair of two distinct bullets twice, once in each argument order, and
these are the only unordered pairs tested more than once. -/
theorem ordered_pairs_once_bullet_pairs_twice (lib : Lib) (delta : Rat) (w : ballistic.World)
    (hw : w.OwnColliders) :
    (∀ p ∈ testedPairs (ballistic.generateContacts lib delta w).2, p.1 ≠ p.2) ∧
    (testedPairs (ballistic.generateContacts lib delta w).2).Nodup ∧
    (∀ b1 ∈ w.bullets, ∀ b2 ∈ w.bullets, b1 ≠ b2 →
      (w.colliderOf b2, w.colliderOf b1) ∈ testedPairs (ballistic.generateContacts lib delta w).2 ∧
      (w.colliderOf b1, w.colliderOf b2) ∈
        testedPairs (ballistic.generateContacts lib delta w).2) ∧
    (∀ p ∈ testedPairs (ballistic.generateContacts lib delta w).2,
      (p.2, p.1) ∈ testedPairs (ballistic.generateContacts lib delta w).2 →
      ∃ b1 ∈ w.bullets, ∃ b2 ∈ w.bullets, b1 ≠ b2 ∧ p = (w.colliderOf b2, w.colliderOf b1)) := by
  obtain ⟨hcb, hc, hbb, hnd⟩ := ballistic.ownColliders_distinct w hw
  have hmem : ∀ x ∈ testedPairs (ballistic.generateContacts lib delta w).2,
      (∃ pl, x.2 = cubez.Collider.plane pl ∧ ∃ e ∈ w.all, x.1 = w.colliderOf e) ∨
      (x = (w.colliderOf w.cube, w.colliderOf w.backboard)) ∨
      (∃ b ∈ w.bullets, ∃ e ∈ w.all, e ≠ b ∧ (e ∈ w.bullets ∨ e = w.cube ∨ e = w.backboard) ∧
        x = (w.colliderOf e, w.colliderOf b)) := by
    intro x hx
    rw [ballistic.testedPairs_eq, List.mem_cons, List.mem_cons, List.mem_flatMap] at hx
    rcases hx with rfl | rfl | ⟨b, hb, hx⟩
    · exact Or.inl ⟨_, rfl, _, ballistic.cube_mem_all w, rfl⟩
    · exact Or.inr (Or.inl rfl)
    · rcases ballistic.mem_bulletPairs w hw _ hb hx with rfl | ⟨e, he, hne, hk, rfl⟩
      · exact Or.inl ⟨_, rfl, _, ballistic.mem_all_of_mem_bullets w hb, rfl⟩
      · exact Or.inr (Or.inr ⟨b, hb, e, he, hne, hk, rfl⟩)
  have hfirst : ∀ x ∈ testedPairs (ballistic.generateContacts lib delta w).2,
      ∃ e, x.1 = cubez.Collider.primitive e := by
    intro x hx
    rcases hmem x hx with ⟨_, _, e, _, h⟩ | rfl | ⟨_, _, e, _, _, _, rfl⟩
    · exact ⟨_, h⟩
    · exact ⟨_, rfl⟩
    · exact ⟨_, rfl⟩
  have hpair : ∀ b ∈ w.bullets, ∀ e ∈ w.bullets, e ≠ b →
      (w.colliderOf e, w.colliderOf b) ∈ testedPairs (ballistic.generateContacts lib delta w).2 := by
    intro b hb e he hne
    rw [ballistic.testedPairs_eq, List.mem_cons, List.mem_cons, List.mem_flatMap]
    refine Or.inr (Or.inr ⟨b, hb, ?_⟩)
    rw [ballistic.bulletPairs_eq, List.mem_cons, List.mem_map]
    refine Or.inr ⟨e, ?_, rfl⟩
    rw [List.mem_cons, List.mem_cons, List.mem_filter]
    exact Or.inr (Or.inr ⟨he, by simpa using hne⟩)
  refine ⟨?_, ballistic.nodup_testedPairs lib delta w hw, ?_, ?_⟩
  · intro p hp heq
    rcases hmem p hp with ⟨pl, h2, e, _, h1⟩ | rfl | ⟨b, hb, e, he, hne, _, rfl⟩
    · rw [h1, h2] at heq
      simp [ballistic.World.colliderOf] at heq
    · exact hcb (ballistic.colliderOf_inj w hw (ballistic.cube_mem_all w)
        (ballistic.backboard_mem_all w) heq)
    · exact hne (ballistic.colliderOf_inj w hw he (ballistic.mem_all_of_mem_bullets w hb) heq)
  · intro b1 hb1 b2 hb2 hne
    exact ⟨hpair b1 hb1 b2 hb2 (Ne.symm hne), hpair b2 hb2 b1 hb1 hne⟩
  · intro p hp hswap
    rcases hmem p hp with ⟨pl, h2, _⟩ | rfl | ⟨b, hb, e, he, hne, hk, rfl⟩
    · obtain ⟨e', he'⟩ := hfirst _ hswap
      simp only at he'
      rw [h2] at he'
      cases he'
    · exfalso
      rcases hmem _ hswap with ⟨pl, h2, _⟩ | h | ⟨b, hb, e, he, hne, _, h⟩
      · simp [ballistic.World.colliderOf] at h2
      · simp only [Prod.mk.injEq] at h
        exact hcb (ballistic.colliderOf_inj w hw (ballistic.cube_mem_all w)
          (ballistic.backboard_mem_all w) h.2)
      · simp only [Prod.mk.injEq] at h
        exact hc ((ballistic.colliderOf_inj w hw (ballistic.cube_mem_all w)
          (ballistic.mem_all_of_mem_bullets w hb) h.2) ▸ hb)
    · rcases hk with hk | rfl | rfl
      · exact ⟨b, hb, e, hk, Ne.symm hne, rfl⟩
      · exfalso
        rcases hmem _ hswap with ⟨pl, h2, _⟩ | h | ⟨b', hb', e', he', hne', _, h⟩
        · simp [ballistic.World.colliderOf] at h2
        · simp only [Prod.mk.injEq] at h
          exact hc ((ballistic.colliderOf_inj w hw (ballistic.mem_all_of_mem_bullets w hb)
            (ballistic.cube_mem_all w) h.1).symm ▸ hb)
        · simp only [Prod.mk.injEq] at h
          exact hc ((ballistic.colliderOf_inj w hw (ballistic.cube_mem_all w)
            (ballistic.mem_all_of_mem_bullets w hb') h.2) ▸ hb')
      · exfalso
        rcases hmem _ hswap with ⟨pl, h2, _⟩ | h | ⟨b', hb', e', he', hne', _, h⟩
        · simp [ballistic.World.colliderOf] at h2
        · simp only [Prod.mk.injEq] at h
          exact hc ((ballistic.colliderOf_inj w hw (ballistic.mem_all_of_mem_bullets w hb)
            (ballistic.cube_mem_all w) h.1).symm ▸ hb)
        · simp only [Prod.mk.injEq] at h
          exact hbb ((ballistic.colliderOf_inj w hw (ballistic.backboard_mem_all w)
            (ballistic.mem_all_of_mem_bullets w hb') h.2) ▸ hb')

/-- Witness for C5, amended: in the world after `main` and two shots the
entities have colliders of their own, and the run tests both `(16, 12)` and
`(12, 16)`. -/
theorem ordered_pairs_once_bullet_pairs_twice_witness :
    toy.world2.OwnColliders ∧
    (testedPairs (ballistic.generateContacts toy.lib 1 toy.world2).2).Nodup ∧
    (toy.world2.colliderOf 17, toy.world2.colliderOf 13) ∈
      testedPairs (ballistic.generateContacts toy.lib 1 toy.world2).2 ∧
    (toy.world2.colliderOf 13, toy.world2.colliderOf 17) ∈
      testedPairs (ballistic.generateContacts toy.lib 1 toy.world2).2 :=
  ⟨ballistic.ownColliders_of_reachable toy.lib toy.world2
     (ballistic.Reachable.fire (ballistic.Reachable.fire ballistic.Reachable.main)),
   (ordered_pairs_once_bullet_pairs_twice toy.lib 1 toy.world2
     (ballistic.ownColliders_of_reachable toy.lib toy.world2
       (ballistic.Reachable.fire (ballistic.Reachable.fire ballistic.Reachable.main)))).2.1,
   (ordered_pairs_once_bullet_pairs_twice toy.lib 1 toy.world2
     (ballistic.ownColliders_of_reachable toy.lib toy.world2
       (ballistic.Reachable.fire (ballistic.Reachable.fire ballistic.Reachable.main)))).2.2.1
     13 (by decide!) 17 (by decide!) (by decide)⟩

/-! ## Claims about derived data -/

/-- In the calls of `updateObjects`, the entity `e` has its `Integrate` call at
some index and its `CalculateDerivedData` call right after. -/
theorem entityCalls_index_of_mem (h : Heap) (d : m.Real) (es : List Ptr) (e : Ptr)
    (he : e ∈ es) :
    ∃ i : Nat, (es.flatMap (entityCalls h d))[i]? =
        some (Call.Integrate (h.GetBody (h.entities e).Collider) d) ∧
      (es.flatMap (entityCalls h d))[i + 1]? =
        some (Call.CalculateDerivedData (h.entities e).Collider) := by
  induction es with
  | nil => cases he
  | cons x xs ih =>
    rcases List.mem_cons.mp he with rfl | he
    · exact ⟨0, rfl, rfl⟩
    · obtain ⟨i, h1, h2⟩ := ih he
      refine ⟨i + 4, ?_, ?_⟩
      · rw [List.flatMap_cons]
        simp only [entityCalls, List.cons_append, List.nil_append, List.getElem?_cons_succ]
        exact h1
      · rw [List.flatMap_cons, Nat.add_right_comm i 4 1]
        simp only [entityCalls, List.cons_append, List.nil_append, List.getElem?_cons_succ]
        exact h2

/-- In the calls of `updateObjects`, every `Integrate` call is that of an
entity, and the next call refreshes the derived data of its collider. -/
theorem entityCalls_integrate_index (h : Heap) (d : m.Real) (es : List Ptr) (i : Nat) (b : Ptr)
    (d' : m.Real) (hi : (es.flatMap (entityCalls h d))[i]? = some (Call.Integrate b d')) :
    ∃ e ∈ es, b = h.GetBody (h.entities e).Collider ∧
      (es.flatMap (entityCalls h d))[i + 1]? =
        some (Call.CalculateDerivedData (h.entities e).Collider) := by
  induction es generalizing i with
  | nil => simp at hi
  | cons x xs ih =>
    have hcons : (x :: xs).flatMap (entityCalls h d) =
        Call.Integrate (h.GetBody (h.entities x).Collider) d ::
        Call.CalculateDerivedData (h.entities x).Collider ::
        Call.SetGlVector3 (h.entities x).Node (h.GetBody (h.entities x).Collider) ::
        Call.SetGlQuat (h.entities x).Node (h.GetBody (h.entities x).Collider) ::
        xs.flatMap (entityCalls h d) := rfl
    rw [hcons] at hi ⊢
    match i, hi with
    | 0, hi =>
      simp only [List.getElem?_cons_zero, Option.some.injEq, Call.Integrate.injEq] at hi
      exact ⟨x, List.mem_cons_self _ _, hi.1.symm, rfl⟩
    | 1, hi => simp at hi
    | 2, hi => simp at hi
    | 3, hi => simp at hi
    | i + 4, hi =>
      simp only [List.getElem?_cons_succ] at hi ⊢
      obtain ⟨e, he, hb, hn⟩ := ih i hi
      exact ⟨e, List.mem_cons_of_mem _ he, hb, hn⟩

theorem isTest_entityCalls (h : Heap) (d : m.Real) (es : List Ptr) :
    ∀ c ∈ es.flatMap (entityCalls h d), c.isTest = false := by
  intro c hc
  simp only [List.mem_flatMap, entityCalls, List.mem_cons, List.mem_singleton,
    List.not_mem_nil, or_false] at hc
  obtain ⟨_, _, rfl | rfl | rfl | rfl⟩ := hc <;> rfl

/-- A primitive that takes part in a test of `generateContacts` is the collider
of the cube, of the backboard or of a bullet. -/
theorem collider_of_tested (lib : Lib) (delta : Rat) (w : ballistic.World)
    (x : cubez.Collider × cubez.Collider)
    (hx : x ∈ testedPairs (ballistic.generateContacts lib delta w).2) (p : Ptr)
    (hp : x.1 = cubez.Collider.primitive p ∨ x.2 = cubez.Collider.primitive p) :
    ∃ e ∈ w.all, p = (w.heap.entities e).Collider := by
  have hcube := ballistic.cube_mem_all w
  have hback := ballistic.backboard_mem_all w
  rw [ballistic.testedPairs_eq, List.mem_cons, List.mem_cons, List.mem_flatMap] at hx
  rcases hx with rfl | rfl | ⟨b, hb, hx⟩
  · rcases hp with hp | hp
    · exact ⟨_, hcube, by simpa [ballistic.World.colliderOf] using hp.symm⟩
    · simp at hp
  · rcases hp with hp | hp
    · exact ⟨_, hcube, by simpa [ballistic.World.colliderOf] using hp.symm⟩
    · exact ⟨_, hback, by simpa [ballistic.World.colliderOf] using hp.symm⟩
  · have hb' := ballistic.mem_all_of_mem_bullets w hb
    rw [ballistic.bulletPairs_eq, List.mem_cons, List.mem_map] at hx
    rcases hx with rfl | ⟨e, he, rfl⟩
    · rcases hp with hp | hp
      · exact ⟨_, hb', by simpa [ballistic.World.colliderOf] using hp.symm⟩
      · simp at hp
    · have he' : e ∈ w.all := by
        rw [List.mem_cons, List.mem_cons, List.mem_filter] at he
        rcases he with rfl | rfl | ⟨he, _⟩
        · exact hcube
        · exact hback
        · exact ballistic.mem_all_of_mem_bullets w he
      rcases hp with hp | hp
      · exact ⟨_, he', by simpa [ballistic.World.colliderOf] using hp.symm⟩
      · exact ⟨_, hb', by simpa [ballistic.World.colliderOf] using hp.symm⟩

/-- C4: in the call trace of every tick, the cube and every bullet has its
`Integrate` call followed by the `CalculateDerivedData` call on its collider,
and that call precedes every collision test of the tick; and in every world the
running example can be in, whenever a body is integrated and, later in the
tick, a collision test involves a collider bound to that body, the derived data
of that collider are refreshed in between. -/
theorem derived_data_before_tests (lib : Lib) (delta : Rat) (w : ballistic.World) :
    (∀ e ∈ w.cube :: w.bullets, ∃ i j : Nat, i < j ∧
      (ballistic.updateCallback lib delta w).2[i]? =
        some (Call.Integrate (w.bodyOf e) (lib.toReal delta)) ∧
      (ballistic.updateCallback lib delta w).2[j]? =
        some (Call.CalculateDerivedData (w.heap.entities e).Collider) ∧
      ∀ (k : Nat) (c : Call), (ballistic.updateCallback lib delta w).2[k]? = some c →
        c.isTest = true → j < k) ∧
    (ballistic.Reachable lib w →
     ∀ (i k : Nat) (b : Ptr) (d : m.Real) (c : Call) (p : Ptr), i < k →
      (ballistic.updateCallback lib delta w).2[i]? = some (Call.Integrate b d) →
      (ballistic.updateCallback lib delta w).2[k]? = some c →
      c.isTest = true → c.involves p → w.heap.GetBody p = b →
      ∃ j : Nat, i < j ∧ j < k ∧
        (ballistic.updateCallback lib delta w).2[j]? = some (Call.CalculateDerivedData p)) := by
  obtain ⟨sp, huc, hub, hul⟩ := ballistic.updateObjects_world lib delta w
  -- the three segments of the trace
  generalize hU : (w.cube :: w.bullets).flatMap (entityCalls w.heap (lib.toReal delta)) = U
  generalize hG : (ballistic.generateContacts lib delta (ballistic.updateObjects lib delta w).1).2
    = G
  have ht : ∃ R, (ballistic.updateCallback lib delta w).2 = U ++ (G ++ R) ∧
      ∀ c ∈ R, c.isTest = false ∧ c.integrated = none := by
    rw [ballistic.updateCallback_calls, ballistic.updateObjects_calls, hU, hG,
      List.append_assoc]
    refine ⟨_, rfl, ?_⟩
    intro c hc
    split at hc
    · rw [List.mem_singleton] at hc
      rw [hc]
      exact ⟨rfl, rfl⟩
    · cases hc
  obtain ⟨R, ht, hR⟩ := ht
  rw [ht]
  have hUtest : ∀ c ∈ U, c.isTest = false := by
    rw [← hU]
    exact isTest_entityCalls _ _ _
  have hGcheck : ∀ c ∈ G, ∃ one two r f cs found out,
      c = Call.CheckForCollisions one two r f cs found out := by
    rw [← hG]
    exact ballistic.generateContacts_calls lib delta _
  -- a test lies behind the calls of `updateObjects`
  have htest : ∀ (k : Nat) (c : Call), (U ++ (G ++ R))[k]? = some c → c.isTest = true →
      U.length ≤ k := by
    intro k c hk hc
    by_contra hlt
    rw [List.getElem?_append_left (Nat.lt_of_not_le hlt)] at hk
    have := hUtest c (List.getElem?_mem hk)
    rw [hc] at this
    cases this
  -- an `Integrate` call lies among the calls of `updateObjects`
  have hint : ∀ (i : Nat) (b : Ptr) (d : m.Real), (U ++ (G ++ R))[i]? = some (Call.Integrate b d) →
      U[i]? = some (Call.Integrate b d) := by
    intro i b d hi
    by_cases hlt : i < U.length
    · rwa [List.getElem?_append_left hlt] at hi
    · exfalso
      rw [List.getElem?_append_right (Nat.le_of_not_lt hlt)] at hi
      rcases List.mem_append.mp (List.getElem?_mem hi) with hm | hm
      · obtain ⟨_, _, _, _, _, _, _, hc⟩ := hGcheck _ hm
        cases hc
      · have := (hR _ hm).2
        simp [Call.integrated] at this
  have hleft : ∀ (i : Nat) (c : Call), U[i]? = some c → (U ++ (G ++ R))[i]? = some c := by
    intro i c hi
    have hlt : i < U.length := (List.getElem?_eq_some.mp hi).1
    rwa [List.getElem?_append_left hlt]
  constructor
  · intro e he
    obtain ⟨i, h1, h2⟩ := entityCalls_index_of_mem w.heap (lib.toReal delta) _ e he
    rw [hU] at h1 h2
    refine ⟨i, i + 1, Nat.lt_succ_self i, hleft _ _ h1, hleft _ _ h2, ?_⟩
    intro k c hk hc
    exact Nat.lt_of_lt_of_le (List.getElem?_eq_some.mp h2).1 (htest k c hk hc)
  · intro hw i k b d c p _ hi hk hc hinv hbody
    have hwf := ballistic.wellFormed_of_reachable lib w hw
    have hi' := hint i b d hi
    rw [← hU] at hi'
    obtain ⟨e, he, hb, hnext⟩ := entityCalls_integrate_index w.heap _ _ i b d hi'
    rw [hU] at hnext
    have hk' := htest k c hk hc
    have hlt : i + 1 < U.length := (List.getElem?_eq_some.mp hnext).1
    -- the collider of the test is the collider of the integrated entity
    have hp : p = (w.heap.entities e).Collider := by
      rw [List.getElem?_append_right hk'] at hk
      rcases List.mem_append.mp (List.getElem?_mem hk) with hm | hm
      · obtain ⟨one, two, r, f, cs, found, out, rfl⟩ := hGcheck _ hm
        have hpair : (one, two) ∈ testedPairs G :=
          List.mem_filterMap.mpr ⟨_, hm, rfl⟩
        rw [← hG] at hpair
        obtain ⟨e', he', hp'⟩ := collider_of_tested lib delta _ (one, two) hpair p
          (by simpa [Call.involves] using hinv)
        have hall : (ballistic.updateObjects lib delta w).1.all = w.all := by
          simp only [ballistic.World.all, huc, hub, hul]
        rw [hall] at he'
        rw [sp.1] at hp'
        have he_all : e ∈ w.all := by
          rcases List.mem_cons.mp he with rfl | he
          · exact ballistic.cube_mem_all w
          · exact ballistic.mem_all_of_mem_bullets w he
        have hbe : w.bodyOf e' = w.bodyOf e := by
          simp only [ballistic.World.bodyOf, ← hp', hbody, hb]
        rw [hp', List.inj_on_of_nodup_map hwf.2.2.2.1 he' he_all hbe]
      · have := (hR _ hm).1
        rw [hc] at this
        cases this
    refine ⟨i + 1, Nat.lt_succ_self i, Nat.lt_of_lt_of_le hlt hk', ?_⟩
    rw [hp]
    exact hleft _ _ hnext

/-- Witness for C4: the world after `main` and two shots is reachable; in a
tick of one second the second bullet's body `15` is integrated at index 8, its
collider `16` is refreshed at index 9, and the first test comes at index 12. -/
theorem derived_data_before_tests_witness :
    ballistic.Reachable toy.lib toy.world2 ∧
    (ballistic.updateCallback toy.lib 1 toy.world2).2[8]? = some (Call.Integrate 15 1) ∧
    ((ballistic.updateCallback toy.lib 1 toy.world2).2[12]?).map Call.isTest = some true ∧
    ∃ j : Nat, 8 < j ∧ j < 17 ∧
      (ballistic.updateCallback toy.lib 1 toy.world2).2[j]? =
        some (Call.CalculateDerivedData 16) :=
  ⟨ballistic.Reachable.fire (ballistic.Reachable.fire ballistic.Reachable.main),
   by decide!, by decide!,
   (derived_data_before_tests toy.lib 1 toy.world2).2
     (ballistic.Reachable.fire (ballistic.Reachable.fire ballistic.Reachable.main))
     8 17 15 1
     (Call.CheckForCollisions (cubez.Collider.primitive 16) (cubez.Collider.primitive 12) 0.9 0.1
       [{ Bodies := (some 11, none), ContactPoint := ⟨0, -1, -20⟩, ContactNormal := ⟨0, 1, 0⟩,
          Penetration := 6/5, Restitution := 0.9, Friction := 0.1 }]
       true
       [{ Bodies := (some 11, none), ContactPoint := ⟨0, -1, -20⟩, ContactNormal := ⟨0, 1, 0⟩,
          Penetration := 6/5, Restitution := 0.9, Friction := 0.1 },
        { Bodies := (some 15, some 11), ContactPoint := ⟨0, -1, -20⟩,
          ContactNormal := ⟨0, 1, 0⟩, Penetration := 2/5, Restitution := 0.9,
          Friction := 0.1 }])
     16 (by decide) (by decide!) (by decide!) rfl (Or.inl rfl) (by decide!)⟩
